import Mathlib

/-!
Verification of the PostureSense monitoring engine
(`useMonitoringEngine`: stabilizer, primary selection, coaching
aggregator, person-lost gate, event retention, angle normalization).

Shallow embedding conventions:
* timestamps and millisecond durations are rationals (the source works
  with JS `number` timestamps from `performance.now()`);
* a JS `Map` is an insertion-ordered association list (`JsMap`), since
  the source iterates map entries in insertion order;
* the optional wall-clock `ts` field (`Date.now()`) and the diagnostic
  `metrics`/`flags` snapshots carried inside event payloads are
  pass-through data never read by the engine and are not modelled;
  runs pair each emitted event with the tick time instead.
-/

namespace PostureSense

/-- The closed set of posture states (`PostureState` in `types.ts`). -/
inductive PostureState where
  | good
  | lean_left
  | lean_right
  | slouch
  | too_close
  | no_person
  | too_far
  | body_lean_left
  | body_lean_right
  | head_tilt_left
  | head_tilt_right
  | head_up
  | head_down
  | shoulders_unlevel
  | shoulders_depth_misaligned
  | back_not_straight
deriving DecidableEq, Repr

/-- `isBadState`: anything other than `good` / `no_person` is a bad state. -/
def isBadState (s : PostureState) : Bool :=
  !(s == PostureState.good) && !(s == PostureState.no_person)

/-- Fixed priority order of issues (`ISSUE_ORDER` in the engine). -/
def ISSUE_ORDER : List PostureState :=
  [PostureState.too_close, PostureState.too_far,
   PostureState.head_down, PostureState.head_up,
   PostureState.head_tilt_left, PostureState.head_tilt_right,
   PostureState.shoulders_unlevel, PostureState.shoulders_depth_misaligned,
   PostureState.body_lean_left, PostureState.body_lean_right,
   PostureState.back_not_straight, PostureState.slouch,
   PostureState.lean_left, PostureState.lean_right]

/-- A landmark (`LM` in the engine): normalized x, y, optional depth and
visibility. -/
structure LM where
  x : ℚ
  y : ℚ
  z : Option ℚ := none
  visibility : Option ℚ := none
deriving DecidableEq, Repr

/-- Payload of a `coach_reminder` event (`CoachReminderPayload` in
`types.ts`; the optional diagnostic `metrics`/`flags` snapshots are
pass-through data, not modelled). -/
structure CoachReminderPayload where
  states : List PostureState
  primary : PostureState
  windowMs : ℚ
  goodMs : ℚ
  badMs : ℚ
  topBad : Option PostureState
deriving DecidableEq, Repr

/-- Events emitted by the engine (`MonitoringEvent` in `types.ts`;
the wall-clock `ts` field is pass-through data, not modelled). -/
inductive MonitoringEvent where
  | posture_alert (state : PostureState)
  | coach_reminder (payload : CoachReminderPayload)
  | distance_alert (distanceSignal baseline : ℚ) (tooClose tooFar : Bool)
  | person_lost
deriving DecidableEq, Repr

/-- `emit`: prepend the event and keep only the 200 most recent
(`setEvents((prev) => [e, ...prev].slice(0, 200))`). -/
def emit (e : MonitoringEvent) (prev : List MonitoringEvent) : List MonitoringEvent :=
  (e :: prev).take 200

/-! ### JS `Map<PostureState, number>` as an insertion-ordered association list -/

/-- Model of `Map<PostureState, number>`: entries in insertion order. -/
def JsMap : Type := List (PostureState × ℚ)

instance : DecidableEq JsMap := inferInstanceAs (DecidableEq (List (PostureState × ℚ)))

instance : Repr JsMap := inferInstanceAs (Repr (List (PostureState × ℚ)))

instance : Append JsMap := inferInstanceAs (Append (List (PostureState × ℚ)))

instance : Membership (PostureState × ℚ) JsMap :=
  inferInstanceAs (Membership (PostureState × ℚ) (List (PostureState × ℚ)))

/-- `map.get(k)`. -/
def jsGet (m : JsMap) (k : PostureState) : Option ℚ :=
  List.lookup k m

/-- `map.get(k) ?? 0`. -/
def jsGetD (m : JsMap) (k : PostureState) : ℚ :=
  (jsGet m k).getD 0

/-- `map.set(k, v)`: replace the entry in place if the key exists
(preserving insertion order), else append it. -/
def jsSet (m : JsMap) (k : PostureState) (v : ℚ) : JsMap :=
  match m with
  | [] => [(k, v)]
  | (k₀, v₀) :: rest =>
      if k₀ = k then (k₀, v) :: rest else (k₀, v₀) :: jsSet rest k v

/-- First-occurrence deduplication, the insertion-order semantics of
`new Set(list)`. -/
def jsDedup : List PostureState → List PostureState
  | [] => []
  | k :: rest => k :: jsDedup (rest.filter (fun x => x ≠ k))
termination_by l => l.length
decreasing_by
  simp only [List.length_cons]
  exact Nat.lt_succ_of_le (List.length_filter_le _ _)

/-! ### Coaching aggregator (`coachTick` and the `coach` constants) -/

/-- `coach.windowMs` (2 minutes). -/
def coachWindowMs : ℚ := 120000

/-- `coach.badDominanceMs` (1.5 minutes of bad within the 2-minute bucket). -/
def badDominanceMs : ℚ := 90000

/-- `coach.continuousBadMs` (same issue continuously for 2 minutes). -/
def continuousBadMs : ℚ := 120000

/-- `coach.cooldownMs` (6 minutes, no spam). -/
def cooldownMs : ℚ := 360000

/-- The coach-layer refs bundled into one state record:
`coachLastTickRef`, `coachWindowStartRef`, `coachGoodMsRef`,
`coachBadMsRef`, `coachStateMsRef`, `coachContinuousMsRef`,
`coachLastReminderAtRef`. -/
structure CoachState where
  lastTick : Option ℚ
  windowStart : Option ℚ
  goodMs : ℚ
  badMs : ℚ
  stateMs : JsMap
  contMs : JsMap
  lastReminderAt : ℚ
deriving DecidableEq, Repr

/-- Initial / reset value of the coach state. -/
def coachInit : CoachState :=
  { lastTick := none, windowStart := none, goodMs := 0, badMs := 0,
    stateMs := [], contMs := [], lastReminderAt := 0 }

/-- Per-state window accumulation: only active issues are counted, or
`good` if none are active. -/
def accumStateMs (m : JsMap) (actives : List PostureState) (dt : ℚ) : JsMap :=
  if actives.isEmpty then
    jsSet m PostureState.good (jsGetD m PostureState.good + dt)
  else
    actives.foldl (fun acc s => jsSet acc s (jsGetD acc s + dt)) m

/-- `new Set(actives.length ? actives : ["good"])`. -/
def coachActiveSet (actives : List PostureState) : List PostureState :=
  jsDedup (if actives.isEmpty then [PostureState.good] else actives)

/-- Continuous tracking: every key already tracked or currently active
gets `dt` added if active, or is reset to 0 if not active this tick.
Keys already in the map are updated in place; newly active keys are
appended (JS `Set`/`Map` iteration order). -/
def contStep (cont : JsMap) (activeSet : List PostureState) (dt : ℚ) : JsMap :=
  (cont.map (fun kv => (kv.1, if activeSet.contains kv.1 then kv.2 + dt else 0)))
    ++ ((activeSet.filter (fun k => (jsGet cont k).isNone)).map (fun k => (k, dt)))

/-- The immediate-reminder scan: first active bad state whose continuous
streak has reached `continuousBadMs`, scanned only when cooled down. -/
def immediateHit (cooledDown : Bool) (actives : List PostureState) (cont : JsMap) :
    Option PostureState :=
  if cooledDown then
    actives.find? (fun s => isBadState s && decide (jsGetD cont s ≥ continuousBadMs))
  else none

/-- One step of the `topBad` scan over the window's per-state times. -/
def topStep (acc : ℚ × Option PostureState) (kv : PostureState × ℚ) :
    ℚ × Option PostureState :=
  if isBadState kv.1 ∧ acc.1 < kv.2 then (kv.2, some kv.1) else acc

/-- `topBad`: the bad state with the largest accumulated time in the
window (first such on ties, `none` when no bad state has positive time). -/
def topBadOf (stateMs : JsMap) : Option PostureState :=
  (stateMs.foldl topStep ((0 : ℚ), none)).2

/-- The accumulation phase of `coachTick` (steps before the triggers):
advance `lastTick`, lazily initialize `windowStart`, add `dt` to
`goodMs`/`badMs`, to the per-state window times and to the continuous
streaks. -/
def coachAccum (now last : ℚ) (actives : List PostureState) (st : CoachState) :
    CoachState :=
  let dt := max 0 (now - last)
  { st with
    lastTick := some now,
    windowStart := some (st.windowStart.getD now),
    goodMs := if actives.any isBadState then st.goodMs else st.goodMs + dt,
    badMs := if actives.any isBadState then st.badMs + dt else st.badMs,
    stateMs := accumStateMs st.stateMs actives dt,
    contMs := contStep st.contMs (coachActiveSet actives) dt }

/-- The body of `coachTick` after the first-tick initialization (the
`coachLastTickRef.current` non-null path): accumulate, check the
immediate trigger (which returns early), then the window-end trigger
(note `const elapsed = windowStart ? now - windowStart : 0` treats a
zero `windowStart` like a missing one). -/
def coachTickGo (now : ℚ) (actives : List PostureState) (primary : PostureState)
    (last : ℚ) (st : CoachState) : CoachState × List MonitoringEvent :=
  let st1 := coachAccum now last actives st
  let cooledDown := decide (now - st.lastReminderAt ≥ cooldownMs)
  match immediateHit cooledDown actives st1.contMs with
  | some s =>
    ({ st1 with contMs := jsSet st1.contMs s 0, lastReminderAt := now },
     [MonitoringEvent.coach_reminder
        { states := actives, primary := primary, windowMs := coachWindowMs,
          goodMs := st1.goodMs, badMs := st1.badMs, topBad := some s }])
  | none =>
    let w := st.windowStart.getD now
    let elapsed := if w = 0 then 0 else now - w
    if elapsed ≥ coachWindowMs then
      let fired := cooledDown && decide (st1.badMs ≥ badDominanceMs)
      let evs :=
        if fired then
          [MonitoringEvent.coach_reminder
             { states := if actives.isEmpty then [PostureState.good] else actives,
               primary := if actives.isEmpty then PostureState.good else primary,
               windowMs := coachWindowMs, goodMs := st1.goodMs,
               badMs := st1.badMs, topBad := topBadOf st1.stateMs }]
        else []
      let newRem := if fired then now else st1.lastReminderAt
      ({ st1 with windowStart := some now, goodMs := 0, badMs := 0, stateMs := [],
                  lastReminderAt := newRem },
       evs)
    else (st1, [])

/-- `coachTick`: one tick of the coaching aggregator. Returns the new
coach state and the events emitted on this tick. Mirrors the source:
skip when no person; the first tick only initializes the timers; then
run the trigger logic (`coachTickGo`). -/
def coachTick (now : ℚ) (actives : List PostureState) (primary : PostureState)
    (st : CoachState) : CoachState × List MonitoringEvent :=
  if primary = PostureState.no_person then (st, [])
  else
    match st.lastTick with
    | none => ({ st with lastTick := some now, windowStart := some now }, [])
    | some last => coachTickGo now actives primary last st

/-- One input tick of a coaching run: tick time, stabilized active
issues, and the primary state. -/
def CoachInput : Type := ℚ × List PostureState × PostureState

/-- One step of a coaching run, collecting emitted events paired with
their tick times. -/
def coachStep (acc : CoachState × List (ℚ × MonitoringEvent)) (inp : CoachInput) :
    CoachState × List (ℚ × MonitoringEvent) :=
  let r := coachTick inp.1 inp.2.1 inp.2.2 acc.1
  (r.1, acc.2 ++ r.2.map (fun e => (inp.1, e)))

/-- A coaching run from the reset state over a list of ticks. -/
def coachRun (inputs : List CoachInput) : CoachState × List (ℚ × MonitoringEvent) :=
  inputs.foldl coachStep (coachInit, [])

/-! ### Stabilizer (`STABLE`, `updateStableIssues`) and primary selection -/

/-- `STABLE.persistMs`: a candidate must remain present this long to
become active. -/
def persistMs : ℚ := 450

/-- `STABLE.clearMs`: an active issue must remain absent this long to
clear. -/
def clearMs : ℚ := 650

/-- Per-issue debounce record (`{ since, lastSeen, active }`). -/
structure IssueState where
  since : Option ℚ
  lastSeen : ℚ
  active : Bool
deriving DecidableEq, Repr

/-- The default record used when an issue has no map entry yet
(`?? { since: null, lastSeen: 0, active: false }`). -/
def issueInit : IssueState := { since := none, lastSeen := 0, active := false }

/-- One debounce step for a single issue: `present` says whether the
issue is in this tick's candidate set. -/
def stepIssue (now : ℚ) (present : Bool) (st : IssueState) : IssueState :=
  if present then
    let since := st.since.getD now
    { since := some since, lastSeen := now,
      active := st.active || decide (now - since ≥ persistMs) }
  else
    if st.active then
      if now - st.lastSeen ≥ clearMs then
        { since := none, lastSeen := st.lastSeen, active := false }
      else st
    else
      { since := none, lastSeen := st.lastSeen, active := st.active }

/-- `updateStableIssues`: update every issue of `ISSUE_ORDER` against the
candidate set and return the new map together with the ordered list of
active issues. The per-session map is modelled as a total function
(reads go through the `?? default`), so the loop over `ISSUE_ORDER`
becomes a pointwise update of the issues in that list. -/
def updateStableIssues (now : ℚ) (candidates : List PostureState)
    (m : PostureState → IssueState) :
    (PostureState → IssueState) × List PostureState :=
  let mNew := fun i =>
    if i ∈ ISSUE_ORDER then stepIssue now (candidates.contains i) (m i) else m i
  (mNew, ISSUE_ORDER.filter (fun i => (mNew i).active))

/-- The reset debounce map (`issueMapRef.current.clear()`). -/
def issueMapInit : PostureState → IssueState := fun _ => issueInit

/-- Run the stabilizer over a list of ticks `(now, candidates)`. -/
def runStable (ticks : List (ℚ × List PostureState))
    (m : PostureState → IssueState) : PostureState → IssueState :=
  ticks.foldl (fun acc tk => (updateStableIssues tk.1 tk.2 acc).1) m

/-- Iterate `stepIssue` with the issue present on every tick. -/
def runPresent (ts : List ℚ) (st : IssueState) : IssueState :=
  ts.foldl (fun s t => stepIssue t true s) st

/-- The loop body of `pickPrimary`: first element of the priority list
that is in the active set. -/
def firstActive : List PostureState → List PostureState → PostureState
  | [], _ => PostureState.good
  | p :: rest, actives =>
      if actives.contains p then p else firstActive rest actives

/-- `pickPrimary`: the first issue in `ISSUE_ORDER` that is active, or
`good` when none is. -/
def pickPrimary (actives : List PostureState) : PostureState :=
  firstActive ISSUE_ORDER actives

/-! ### Person-lost gate of the frame loop -/

/-- The engine state touched by the landmark-presence gate of `loop`:
`primaryRef`, `activeStates` and the retained `events` list. -/
structure EngineView where
  primary : PostureState
  activeStates : List PostureState
  events : List MonitoringEvent
deriving DecidableEq, Repr

/-- `!raw || raw.length < 13`: the frame has no usable landmarks. -/
def unusable (raw : Option (List LM)) : Bool :=
  match raw with
  | none => true
  | some l => decide (l.length < 13)

/-- The landmark-presence gate at the top of `loop`: on an unusable
frame, force `no_person`, clear the active set and emit `person_lost`
exactly on the transition; on a usable frame the gate does nothing
(the rest of the pipeline runs). Returns the new state, the events
emitted by the gate, and whether the pipeline continues. -/
def frameGate (raw : Option (List LM)) (st : EngineView) :
    EngineView × List MonitoringEvent × Bool :=
  if unusable raw then
    if st.primary ≠ PostureState.no_person then
      ({ primary := PostureState.no_person, activeStates := [],
         events := emit MonitoringEvent.person_lost st.events },
       [MonitoringEvent.person_lost], false)
    else (st, [], false)
  else (st, [], true)

/-! ### Angle normalization (`normalizeTo90`) -/

/-- Truncation toward zero, the rounding used by the JS `%` operator. -/
def jsTrunc (q : ℚ) : ℤ :=
  if 0 ≤ q then ⌊q⌋ else ⌈q⌉

/-- The JS remainder operator `x % y` on numbers (sign follows the
dividend). -/
def jsMod (x y : ℚ) : ℚ :=
  x - y * (jsTrunc (x / y) : ℚ)

/-- `normalizeTo90`: fold an angle in degrees first into (−180, 180] via
`((angle + 180) % 360) - 180` and then toward the ±90 band with two
single corrections. -/
def normalizeTo90 (angle : ℚ) : ℚ :=
  let a := jsMod (angle + 180) 360 - 180
  let a := if a > 90 then a - 180 else a
  let a := if a < -90 then a + 180 else a
  a

/-! ### Invariants of reachable coach states -/

/-- Total bad time recorded in a per-state window map. -/
def badSum (m : JsMap) : ℚ :=
  ((m.filter (fun kv => isBadState kv.1)).map Prod.snd).sum

/-- A window start, once set, is a (positive) tick time. -/
def windowStartPos (o : Option ℚ) : Bool :=
  match o with
  | none => true
  | some w => decide (0 < w)

/-- Invariant of coach states reachable by runs with positive tick
times: `badMs` never exceeds the total bad time recorded in the window
map, and `windowStart` is positive once set. -/
def CoachInv (st : CoachState) : Prop :=
  st.badMs ≤ badSum st.stateMs ∧ windowStartPos st.windowStart = true

/-- Invariant of reachable engine states: while the primary is
`no_person` the active-issue set is empty (it is cleared on the
transition and only repopulated on usable frames). -/
def EngineInv (st : EngineView) : Prop :=
  st.primary = PostureState.no_person → st.activeStates = []

/-- Test run: `too_close` active from t = 1 ms on; its continuous streak
reaches 120,000 ms at the tick at t = 120,001 ms while no reminder was
ever emitted (`lastReminderAt` still 0). -/
def cexImmediate : List CoachInput :=
  [((1 : ℚ), [PostureState.too_close], PostureState.too_close),
   ((60001 : ℚ), [PostureState.too_close], PostureState.too_close),
   ((120001 : ℚ), [PostureState.too_close], PostureState.too_close)]

/-- Test run: a reminder fires at t = 360,001 ms; at t = 480,001 ms the
same issue has again been continuously bad for 120,000 ms (a second
otherwise-qualifying immediate trigger within the 360,000 ms cooldown). -/
def cexCooldown : List CoachInput :=
  [((1 : ℚ), [PostureState.too_close], PostureState.too_close),
   ((360001 : ℚ), [PostureState.too_close], PostureState.too_close),
   ((480001 : ℚ), [PostureState.too_close], PostureState.too_close)]

/-- Test run: `head_down` active throughout; the window rolls over at
the tick at t = 120,001 ms. -/
def cexRollover : List CoachInput :=
  [((1 : ℚ), [PostureState.head_down], PostureState.head_down),
   ((120001 : ℚ), [PostureState.head_down], PostureState.head_down)]

/-- Test fixture: a fresh window opened at t = 1 ms, nothing accumulated
yet. -/
def stFresh : CoachState :=
  { lastTick := some 1, windowStart := some 1, goodMs := 0, badMs := 0,
    stateMs := [], contMs := [], lastReminderAt := 0 }

/-- Test fixture: a window opened at t = 1 ms holding 90,000 ms of
`head_down` time. -/
def stDominated : CoachState :=
  { lastTick := some 1, windowStart := some 1, goodMs := 0, badMs := 90000,
    stateMs := [(PostureState.head_down, 90000)], contMs := [],
    lastReminderAt := 0 }

/-- Test fixture: a `too_close` streak of 119,000 ms, last tick at t = 0. -/
def stStreak : CoachState :=
  { lastTick := some 0, windowStart := some 1, goodMs := 0, badMs := 0,
    stateMs := [], contMs := [(PostureState.too_close, 119000)],
    lastReminderAt := 0 }

/-! ### Helper lemmas -/

theorem contains_true {l : List PostureState} {a : PostureState} :
    l.contains a = true ↔ a ∈ l := by simp

theorem emit_eq (e : MonitoringEvent) (prev : List MonitoringEvent) :
    emit e prev = e :: prev.take 199 := by
  rw [emit, show (200 : ℕ) = 199 + 1 from rfl, List.take_succ_cons]

theorem emit_length_le (e : MonitoringEvent) (prev : List MonitoringEvent) :
    (emit e prev).length ≤ 200 := by
  rw [emit_eq]
  simp only [List.length_cons, List.length_take]
  omega

theorem foldl_emit_le (es : List MonitoringEvent) :
    ∀ acc : List MonitoringEvent, acc.length ≤ 200 →
      (es.foldl (fun acc e => emit e acc) acc).length ≤ 200 := by
  induction es with
  | nil => intro acc h; simpa using h
  | cons e rest ih =>
      intro acc _
      simpa using ih (emit e acc) (emit_length_le e acc)

theorem firstActive_cons_pos {l : List PostureState} {q : PostureState}
    (rest : List PostureState) (h : q ∈ l) :
    firstActive (q :: rest) l = q := by
  show (if l.contains q then q else firstActive rest l) = q
  exact if_pos (contains_true.mpr h)

theorem firstActive_cons_neg {l : List PostureState} {q : PostureState}
    (rest : List PostureState) (h : q ∉ l) :
    firstActive (q :: rest) l = firstActive rest l := by
  show (if l.contains q then q else firstActive rest l) = firstActive rest l
  exact if_neg (fun hc => h (contains_true.mp hc))

theorem firstActive_eq_good (L l : List PostureState) (h : ∀ p ∈ L, p ∉ l) :
    firstActive L l = PostureState.good := by
  induction L with
  | nil => rfl
  | cons q rest ih =>
      rw [firstActive_cons_neg rest (h q (by simp))]
      exact ih (fun p hp => h p (List.mem_cons_of_mem _ hp))

theorem firstActive_found (L l : List PostureState) (p : PostureState)
    (hpL : p ∈ L) (hpl : p ∈ l) :
    firstActive L l ∈ l ∧ firstActive L l ∈ L ∧
      L.indexOf (firstActive L l) ≤ L.indexOf p := by
  induction L with
  | nil => cases hpL
  | cons q rest ih =>
      by_cases hq : q ∈ l
      · rw [firstActive_cons_pos rest hq]
        exact ⟨hq, by simp, by rw [List.indexOf_cons_self]; exact Nat.zero_le _⟩
      · have hpq : p ≠ q := fun hh => hq (hh ▸ hpl)
        have hpR : p ∈ rest := by
          rcases List.mem_cons.mp hpL with hh | hh
          · exact absurd hh hpq
          · exact hh
        obtain ⟨h1, h2, h3⟩ := ih hpR
        rw [firstActive_cons_neg rest hq]
        have hfq : q ≠ firstActive rest l := fun hh => hq (hh ▸ h1)
        refine ⟨h1, List.mem_cons_of_mem _ h2, ?_⟩
        rw [List.indexOf_cons_ne _ hfq, List.indexOf_cons_ne _ (Ne.symm hpq)]
        exact Nat.succ_le_succ h3

/-! ### Claim theorems -/

/-- Claim C7: on every tick, the primary posture state is the first
issue of the fixed priority order `ISSUE_ORDER` that is in the active
set (in particular, for active set {shoulders_unlevel, head_down} the
primary is head_down), and is `good` whenever the active set is empty. -/
theorem pickPrimary_spec :
    pickPrimary [] = PostureState.good ∧
    pickPrimary [PostureState.shoulders_unlevel, PostureState.head_down] =
      PostureState.head_down ∧
    (∀ l : List PostureState, (∀ p ∈ ISSUE_ORDER, p ∉ l) →
       pickPrimary l = PostureState.good) ∧
    (∀ (l : List PostureState) (p : PostureState), p ∈ ISSUE_ORDER → p ∈ l →
       pickPrimary l ∈ l ∧ pickPrimary l ∈ ISSUE_ORDER ∧
         ISSUE_ORDER.indexOf (pickPrimary l) ≤ ISSUE_ORDER.indexOf p) := by
  refine ⟨by decide, by decide, ?_, ?_⟩
  · exact fun l h => firstActive_eq_good ISSUE_ORDER l h
  · exact fun l p hpO hpl => firstActive_found ISSUE_ORDER l p hpO hpl

/-- Witness for `pickPrimary_spec` at a concrete active set. -/
theorem pickPrimary_spec_witness :
    pickPrimary [PostureState.head_down, PostureState.too_far] ∈
        ([PostureState.head_down, PostureState.too_far] : List PostureState) ∧
      pickPrimary [PostureState.head_down, PostureState.too_far] ∈ ISSUE_ORDER ∧
      ISSUE_ORDER.indexOf (pickPrimary [PostureState.head_down, PostureState.too_far]) ≤
        ISSUE_ORDER.indexOf PostureState.head_down :=
  pickPrimary_spec.2.2.2 [PostureState.head_down, PostureState.too_far]
    PostureState.head_down (by decide) (by decide)

/-- Claim C10: every emitted event is prepended (newest first) and the
retained list is truncated to the 200 most recent events, so the
engine's events list never exceeds 200 entries in any run of emissions. -/
theorem emit_retention :
    (∀ (e : MonitoringEvent) (prev : List MonitoringEvent),
       (emit e prev).head? = some e ∧
       (emit e prev).length ≤ 200 ∧
       (∀ i : ℕ, i < 199 → (emit e prev)[i + 1]? = prev[i]?) ∧
       (prev.length ≤ 199 → emit e prev = e :: prev)) ∧
    (∀ es : List MonitoringEvent,
       (es.foldl (fun acc e => emit e acc) []).length ≤ 200) := by
  refine ⟨fun e prev => ⟨?_, emit_length_le e prev, ?_, ?_⟩, fun es => ?_⟩
  · rw [emit_eq]; rfl
  · intro i hi
    rw [emit_eq, List.getElem?_cons_succ, List.getElem?_take]
    exact if_pos hi
  · intro h
    rw [emit_eq, List.take_of_length_le h]
  · exact foldl_emit_le es [] (by simp)

/-- Witness for `emit_retention` at a concrete event and list. -/
theorem emit_retention_witness :
    (0 < 199 ∧
      (emit MonitoringEvent.person_lost
          [MonitoringEvent.person_lost, MonitoringEvent.person_lost])[0 + 1]? =
        some MonitoringEvent.person_lost) ∧
    ([MonitoringEvent.person_lost].length ≤ 199 ∧
      emit MonitoringEvent.person_lost [MonitoringEvent.person_lost] =
        [MonitoringEvent.person_lost, MonitoringEvent.person_lost]) :=
  ⟨⟨by decide,
    ((emit_retention.1 MonitoringEvent.person_lost
        [MonitoringEvent.person_lost, MonitoringEvent.person_lost]).2.2.1 0
      (by decide)).trans (by decide)⟩,
   ⟨by decide,
    (emit_retention.1 MonitoringEvent.person_lost [MonitoringEvent.person_lost]).2.2.2
      (by decide)⟩⟩

/-- Claim C9, counterexample: the roll-angle normalization does NOT map
into the half-open interval (−90°, 90°]. At input −90° (a value the
ear-to-ear `atan2` angle attains) it returns −90°, which is not strictly
greater than −90. -/
theorem normalizeTo90_cex :
    normalizeTo90 (-90) = -90 ∧ ¬ (-90 < normalizeTo90 (-90)) := by
  have h : normalizeTo90 (-90) = -90 := by
    norm_num [normalizeTo90, jsMod, jsTrunc]
  exact ⟨h, by rw [h]; norm_num⟩

/-- Claim C9, amended: for every input angle in the closed `atan2` output
range [−180°, 180°], `normalizeTo90` returns a value in the CLOSED
interval [−90°, 90°] (−90 is attained, at angle −90). -/
theorem normalizeTo90_range (angle : ℚ) (hlo : -180 ≤ angle) (hhi : angle ≤ 180) :
    -90 ≤ normalizeTo90 angle ∧ normalizeTo90 angle ≤ 90 := by
  rcases eq_or_lt_of_le hhi with heq | hlt
  · subst heq
    constructor <;> norm_num [normalizeTo90, jsMod, jsTrunc]
  · have h0 : (0 : ℚ) ≤ (angle + 180) / 360 := by
      apply div_nonneg _ (by norm_num)
      linarith
    have h1 : (angle + 180) / 360 < 1 := by
      rw [div_lt_one (by norm_num)]
      linarith
    have hfl : ⌊(angle + 180) / 360⌋ = 0 := by
      rw [Int.floor_eq_zero_iff]
      exact Set.mem_Ico.mpr ⟨h0, h1⟩
    have hmod : jsMod (angle + 180) 360 = angle + 180 := by
      rw [jsMod, jsTrunc, if_pos h0, hfl]
      ring
    rw [normalizeTo90, hmod]
    split_ifs <;> constructor <;> linarith

/-- Witness for `normalizeTo90_range` at a concrete angle. -/
theorem normalizeTo90_range_witness :
    ((-180 : ℚ) ≤ 135 ∧ (135 : ℚ) ≤ 180) ∧
      (-90 ≤ normalizeTo90 135 ∧ normalizeTo90 135 ≤ 90) :=
  ⟨⟨by norm_num, by norm_num⟩, normalizeTo90_range 135 (by norm_num) (by norm_num)⟩

theorem frameGate_unusable_trans {raw : Option (List LM)} {st : EngineView}
    (h : unusable raw = true) (hp : st.primary ≠ PostureState.no_person) :
    frameGate raw st =
      ({ primary := PostureState.no_person, activeStates := [],
         events := emit MonitoringEvent.person_lost st.events },
       [MonitoringEvent.person_lost], false) := by
  simp [frameGate, h, hp]

theorem frameGate_unusable_same {raw : Option (List LM)} {st : EngineView}
    (h : unusable raw = true) (hp : st.primary = PostureState.no_person) :
    frameGate raw st = (st, [], false) := by
  simp [frameGate, h, hp]

/-- Claim C6: on a tick with no usable landmarks (no pose result or
fewer than 13 landmarks) the primary state is forced to `no_person` and
the active-issue set is cleared; a `person_lost` event is emitted exactly
on the transition into that state, and never on subsequent consecutive
no-landmark ticks. -/
theorem person_lost_transition (raw : Option (List LM)) (st : EngineView)
    (h : unusable raw = true) (hinv : EngineInv st) :
    (frameGate raw st).1.primary = PostureState.no_person ∧
    (frameGate raw st).1.activeStates = [] ∧
    (st.primary ≠ PostureState.no_person →
      (frameGate raw st).2.1 = [MonitoringEvent.person_lost] ∧
      (frameGate raw st).1.events = emit MonitoringEvent.person_lost st.events) ∧
    (st.primary = PostureState.no_person →
      (frameGate raw st).2.1 = [] ∧ (frameGate raw st).1.events = st.events) ∧
    EngineInv (frameGate raw st).1 ∧
    (∀ raw2 : Option (List LM), unusable raw2 = true →
      (frameGate raw2 (frameGate raw st).1).2.1 = []) := by
  by_cases hp : st.primary = PostureState.no_person
  · rw [frameGate_unusable_same h hp]
    refine ⟨hp, hinv hp, fun hne => absurd hp hne, fun _ => ⟨rfl, rfl⟩, hinv, ?_⟩
    intro raw2 h2
    rw [frameGate_unusable_same h2 hp]
  · rw [frameGate_unusable_trans h hp]
    refine ⟨rfl, rfl, fun _ => ⟨rfl, rfl⟩, fun he => absurd he hp, fun _ => rfl, ?_⟩
    intro raw2 h2
    rw [frameGate_unusable_same h2 rfl]

/-- Witness for `person_lost_transition`: a concrete unusable frame
(12 landmarks) hitting a state that is tracking a person. -/
theorem person_lost_transition_witness :
    (unusable (some (List.replicate 12 { x := 0, y := 0 : LM })) = true ∧
      EngineInv { primary := PostureState.good, activeStates := [], events := [] }) ∧
    (frameGate (some (List.replicate 12 { x := 0, y := 0 : LM }))
        { primary := PostureState.good, activeStates := [], events := [] }).1.primary =
      PostureState.no_person :=
  ⟨⟨by decide, fun h => rfl⟩,
   (person_lost_transition (some (List.replicate 12 { x := 0, y := 0 : LM }))
      { primary := PostureState.good, activeStates := [], events := [] }
      (by decide) (fun h => rfl)).1⟩

theorem updateStable_apply (now : ℚ) (cands : List PostureState)
    (m : PostureState → IssueState) {i : PostureState} (hi : i ∈ ISSUE_ORDER) :
    (updateStableIssues now cands m).1 i = stepIssue now (cands.contains i) (m i) := by
  simp [updateStableIssues, hi]

theorem stepIssue_present_of_mem (now : ℚ) (cands : List PostureState)
    (m : PostureState → IssueState) {i : PostureState} (hi : i ∈ ISSUE_ORDER)
    (hc : i ∈ cands) :
    (updateStableIssues now cands m).1 i = stepIssue now true (m i) := by
  rw [updateStable_apply now cands m hi, contains_true.mpr hc]

theorem runStable_present {issue : PostureState} (hi : issue ∈ ISSUE_ORDER) :
    ∀ (ticks : List (ℚ × List PostureState)) (m : PostureState → IssueState),
      (∀ tk ∈ ticks, issue ∈ tk.2) →
      runStable ticks m issue = runPresent (ticks.map Prod.fst) (m issue) := by
  intro ticks
  induction ticks with
  | nil => intro m _; rfl
  | cons tk rest ih =>
      intro m h
      have h0 : issue ∈ tk.2 := h tk (by simp)
      have step : (updateStableIssues tk.1 tk.2 m).1 issue = stepIssue tk.1 true (m issue) :=
        stepIssue_present_of_mem tk.1 tk.2 m hi h0
      calc runStable (tk :: rest) m issue
          = runStable rest ((updateStableIssues tk.1 tk.2 m).1) issue := rfl
        _ = runPresent (rest.map Prod.fst) ((updateStableIssues tk.1 tk.2 m).1 issue) :=
            ih _ (fun t ht => h t (List.mem_cons_of_mem _ ht))
        _ = runPresent ((tk :: rest).map Prod.fst) (m issue) := by
            rw [step]; rfl

theorem runPresent_active (s0 : ℚ) :
    ∀ (ts : List ℚ) (st : IssueState), st.since = some s0 →
      ((runPresent ts st).active = true ↔
        st.active = true ∨ ∃ t ∈ ts, t - s0 ≥ persistMs) := by
  intro ts
  induction ts with
  | nil => intro st _; simp [runPresent]
  | cons t rest ih =>
      intro st hs
      have hstep : stepIssue t true st =
          { since := some s0, lastSeen := t,
            active := st.active || decide (t - s0 ≥ persistMs) } := by
        simp [stepIssue, hs]
      have : runPresent (t :: rest) st = runPresent rest (stepIssue t true st) := rfl
      rw [this, hstep, ih _ rfl]
      simp only [Bool.or_eq_true, decide_eq_true_eq, List.mem_cons]
      constructor
      · rintro (((h | h) | h))
        · exact Or.inl h
        · exact Or.inr ⟨t, Or.inl rfl, h⟩
        · obtain ⟨u, hu, hge⟩ := h
          exact Or.inr ⟨u, Or.inr hu, hge⟩
      · rintro (h | ⟨u, (rfl | hu), hge⟩)
        · exact Or.inl (Or.inl h)
        · exact Or.inl (Or.inr hge)
        · exact Or.inr ⟨u, hu, hge⟩

theorem stepIssue_first (t0 : ℚ) :
    stepIssue t0 true issueInit = { since := some t0, lastSeen := t0, active := false } := by
  have h450 : ¬ (t0 - t0 ≥ persistMs) := by rw [persistMs]; norm_num
  simp [stepIssue, issueInit, h450]
  rw [persistMs]
  norm_num

/-- Claim C4 (debounce persist): starting from the reset debounce map,
with the issue present in the candidate set on every tick, the issue is
active after any prefix of the run exactly when some tick of the prefix
is at least `persistMs` (450 ms) after the first tick (so a presence
streak shorter than 450 ms never activates, and activation happens at
the first tick crossing that duration); and on any tick of absence
before activation, `since` is cleared and the issue stays inactive (no
partial credit). -/
theorem stabilizer_persist :
    (∀ (issue : PostureState) (tk0 : ℚ × List PostureState)
       (rest : List (ℚ × List PostureState)) (n : ℕ),
       issue ∈ ISSUE_ORDER →
       (∀ tk ∈ tk0 :: rest, issue ∈ tk.2) →
       (((runStable ((tk0 :: rest).take (n + 1)) issueMapInit) issue).active = true ↔
         ∃ tk ∈ (tk0 :: rest).take (n + 1), tk.1 - tk0.1 ≥ persistMs)) ∧
    (∀ (now : ℚ) (cands : List PostureState) (m : PostureState → IssueState)
       (issue : PostureState),
       issue ∈ ISSUE_ORDER → issue ∉ cands → (m issue).active = false →
       ((updateStableIssues now cands m).1 issue).since = none ∧
         ((updateStableIssues now cands m).1 issue).active = false) := by
  constructor
  · intro issue tk0 rest n hi hpres
    have htake : (tk0 :: rest).take (n + 1) = tk0 :: rest.take n := List.take_succ_cons
    have hpres2 : ∀ tk ∈ tk0 :: rest.take n, issue ∈ tk.2 := by
      intro tk htk
      rcases List.mem_cons.mp htk with h | h
      · exact h ▸ hpres tk0 (by simp)
      · exact hpres tk (List.mem_cons_of_mem _ (List.take_subset n rest h))
    rw [htake, runStable_present hi _ issueMapInit hpres2]
    have : runPresent ((tk0 :: rest.take n).map Prod.fst) (issueMapInit issue) =
        runPresent ((rest.take n).map Prod.fst)
          { since := some tk0.1, lastSeen := tk0.1, active := false } := by
      show runPresent ((rest.take n).map Prod.fst) (stepIssue tk0.1 true issueInit) = _
      rw [stepIssue_first]
    rw [this, runPresent_active tk0.1 _ _ rfl]
    have h0 : ¬ (tk0.1 - tk0.1 ≥ persistMs) := by rw [persistMs]; norm_num
    simp only [Bool.false_eq_true, false_or, List.mem_cons, List.mem_map]
    constructor
    · rintro ⟨t, ⟨tk, htk, rfl⟩, hge⟩
      exact ⟨tk, Or.inr htk, hge⟩
    · rintro ⟨tk, (rfl | htk), hge⟩
      · exact absurd hge h0
      · exact ⟨tk.1, ⟨tk, htk, rfl⟩, hge⟩
  · intro now cands m issue hi hc hact
    have hcc : cands.contains issue = false := by
      cases h : cands.contains issue with
      | false => rfl
      | true => exact absurd (contains_true.mp h) hc
    rw [updateStable_apply now cands m hi, hcc]
    simp [stepIssue, hact]

/-- Witness for `stabilizer_persist`: a 3-tick presence run of
`head_down` (0, 300, 450 ms) activates exactly at the 450 ms tick, and a
tick of absence at 100 ms from a pending state clears `since`. -/
theorem stabilizer_persist_witness :
    ((PostureState.head_down ∈ ISSUE_ORDER) ∧
      (((runStable
            ([((0 : ℚ), [PostureState.head_down]),
              ((300 : ℚ), [PostureState.head_down]),
              ((450 : ℚ), [PostureState.head_down])].take (2 + 1)) issueMapInit)
          PostureState.head_down).active = true ↔
        ∃ tk ∈ ([((0 : ℚ), [PostureState.head_down]),
              ((300 : ℚ), [PostureState.head_down]),
              ((450 : ℚ), [PostureState.head_down])].take (2 + 1)),
          tk.1 - (0 : ℚ) ≥ persistMs)) ∧
    (((updateStableIssues 100 [] issueMapInit).1 PostureState.head_down).since = none ∧
      ((updateStableIssues 100 [] issueMapInit).1 PostureState.head_down).active = false) :=
  ⟨⟨by decide,
    stabilizer_persist.1 PostureState.head_down ((0 : ℚ), [PostureState.head_down])
      [((300 : ℚ), [PostureState.head_down]), ((450 : ℚ), [PostureState.head_down])] 2
      (by decide) (by decide)⟩,
   stabilizer_persist.2 100 [] issueMapInit PostureState.head_down
     (by decide) (by decide) rfl⟩

/-- Claim C5 (debounce clear asymmetry): an active issue stays active
(with its clear timer `lastSeen` reset to `now`) whenever it reappears
in the candidate set; while absent it stays active, completely
unchanged, as long as `now − lastSeen` is below `clearMs` (650 ms), and
transitions to inactive with `since` cleared at the first tick where
`now − lastSeen` reaches 650 ms (`lastSeen` itself is preserved, so the
deadline is measured from the last sighting); it is listed in the
stabilizer's active output exactly while active. -/
theorem stabilizer_clear (now : ℚ) (cands : List PostureState)
    (m : PostureState → IssueState) (issue : PostureState)
    (hi : issue ∈ ISSUE_ORDER) (hact : (m issue).active = true) :
    (issue ∈ cands →
      ((updateStableIssues now cands m).1 issue).active = true ∧
      ((updateStableIssues now cands m).1 issue).lastSeen = now) ∧
    (issue ∉ cands → now - (m issue).lastSeen < clearMs →
      (updateStableIssues now cands m).1 issue = m issue) ∧
    (issue ∉ cands → now - (m issue).lastSeen ≥ clearMs →
      ((updateStableIssues now cands m).1 issue).active = false ∧
      ((updateStableIssues now cands m).1 issue).since = none ∧
      ((updateStableIssues now cands m).1 issue).lastSeen = (m issue).lastSeen) ∧
    (issue ∈ (updateStableIssues now cands m).2 ↔
      ((updateStableIssues now cands m).1 issue).active = true) := by
  refine ⟨?_, ?_, ?_, ?_⟩
  · intro hc
    rw [stepIssue_present_of_mem now cands m hi hc]
    constructor
    · simp [stepIssue, hact]
    · simp [stepIssue]
  · intro hc hlt
    have hcc : cands.contains issue = false := by
      cases h : cands.contains issue with
      | false => rfl
      | true => exact absurd (contains_true.mp h) hc
    rw [updateStable_apply now cands m hi, hcc]
    simp [stepIssue, hact, not_le.mpr hlt]
  · intro hc hge
    have hcc : cands.contains issue = false := by
      cases h : cands.contains issue with
      | false => rfl
      | true => exact absurd (contains_true.mp h) hc
    rw [updateStable_apply now cands m hi, hcc]
    simp [stepIssue, hact, hge]
  · rw [show (updateStableIssues now cands m).2 =
          ISSUE_ORDER.filter (fun i => ((updateStableIssues now cands m).1 i).active)
        from rfl,
       List.mem_filter]
    simp [hi]

/-- Witness for `stabilizer_clear`: an issue active since t = 0 and last
seen at t = 0 survives an absent tick at 649 ms unchanged. -/
theorem stabilizer_clear_witness :
    (PostureState.too_close ∈ ISSUE_ORDER ∧
      ((fun _ => { since := some 0, lastSeen := 0, active := true : IssueState })
          PostureState.too_close).active = true ∧
      PostureState.too_close ∉ ([] : List PostureState) ∧
      (649 : ℚ) - 0 < clearMs) ∧
    (updateStableIssues 649 []
        (fun _ => { since := some 0, lastSeen := 0, active := true : IssueState })).1
        PostureState.too_close =
      { since := some 0, lastSeen := 0, active := true } :=
  ⟨⟨by decide, rfl, by decide, by rw [clearMs]; norm_num⟩,
   (stabilizer_clear 649 []
      (fun _ => { since := some 0, lastSeen := 0, active := true : IssueState })
      PostureState.too_close (by decide) rfl).2.1
     (by decide) (by rw [clearMs]; norm_num)⟩

/-! ### Coach layer: branch lemmas -/

theorem coachTick_skip {primary : PostureState} (now : ℚ) (actives : List PostureState)
    (st : CoachState) (hp : primary = PostureState.no_person) :
    coachTick now actives primary st = (st, []) := by
  simp [coachTick, hp]

theorem coachTick_init {primary : PostureState} (now : ℚ) (actives : List PostureState)
    (st : CoachState) (hp : primary ≠ PostureState.no_person) (hl : st.lastTick = none) :
    coachTick now actives primary st =
      ({ st with lastTick := some now, windowStart := some now }, []) := by
  simp [coachTick, hp, hl]

theorem coachTick_some {primary : PostureState} {last : ℚ} (now : ℚ)
    (actives : List PostureState) (st : CoachState)
    (hp : primary ≠ PostureState.no_person) (hl : st.lastTick = some last) :
    coachTick now actives primary st = coachTickGo now actives primary last st := by
  simp [coachTick, hp, hl]

theorem coachTickGo_immediate {now last : ℚ} {actives : List PostureState}
    {primary : PostureState} {st : CoachState} {s : PostureState}
    (hs : immediateHit (decide (now - st.lastReminderAt ≥ cooldownMs)) actives
            (coachAccum now last actives st).contMs = some s) :
    coachTickGo now actives primary last st =
      ({ coachAccum now last actives st with
         contMs := jsSet (coachAccum now last actives st).contMs s 0,
         lastReminderAt := now },
       [MonitoringEvent.coach_reminder
          { states := actives, primary := primary, windowMs := coachWindowMs,
            goodMs := (coachAccum now last actives st).goodMs,
            badMs := (coachAccum now last actives st).badMs, topBad := some s }]) := by
  rw [coachTickGo]
  rw [hs]

theorem coachTickGo_window {now last : ℚ} {actives : List PostureState}
    {primary : PostureState} {st : CoachState} {w : ℚ}
    (hs : immediateHit (decide (now - st.lastReminderAt ≥ cooldownMs)) actives
            (coachAccum now last actives st).contMs = none)
    (hw : st.windowStart = some w) (hw0 : w ≠ 0) (he : now - w ≥ coachWindowMs) :
    coachTickGo now actives primary last st =
      ({ coachAccum now last actives st with
         windowStart := some now, goodMs := 0, badMs := 0, stateMs := [],
         lastReminderAt :=
           if decide (now - st.lastReminderAt ≥ cooldownMs) &&
              decide ((coachAccum now last actives st).badMs ≥ badDominanceMs)
           then now else st.lastReminderAt },
       if decide (now - st.lastReminderAt ≥ cooldownMs) &&
          decide ((coachAccum now last actives st).badMs ≥ badDominanceMs)
       then
         [MonitoringEvent.coach_reminder
            { states := if actives.isEmpty then [PostureState.good] else actives,
              primary := if actives.isEmpty then PostureState.good else primary,
              windowMs := coachWindowMs,
              goodMs := (coachAccum now last actives st).goodMs,
              badMs := (coachAccum now last actives st).badMs,
              topBad := topBadOf (coachAccum now last actives st).stateMs }]
       else []) := by
  rw [coachTickGo]
  rw [hs, hw]
  simp only [Option.getD_some]
  rw [if_neg hw0, if_pos he]
  rfl

theorem coachTickGo_quiet {now last : ℚ} {actives : List PostureState}
    {primary : PostureState} {st : CoachState} {w : ℚ}
    (hs : immediateHit (decide (now - st.lastReminderAt ≥ cooldownMs)) actives
            (coachAccum now last actives st).contMs = none)
    (hw : st.windowStart = some w) (hw0 : w ≠ 0) (he : ¬ (now - w ≥ coachWindowMs)) :
    coachTickGo now actives primary last st =
      (coachAccum now last actives st, []) := by
  rw [coachTickGo]
  rw [hs, hw]
  simp only [Option.getD_some]
  rw [if_neg hw0, if_neg he]

/-! ### JsMap lemmas -/

theorem jsGet_nil (k : PostureState) : jsGet ([] : JsMap) k = none := rfl

theorem jsGet_cons (k k0 : PostureState) (v0 : ℚ) (rest : List (PostureState × ℚ)) :
    jsGet ((k0, v0) :: rest : JsMap) k = if k = k0 then some v0 else jsGet rest k := by
  rw [jsGet, List.lookup]
  cases hb : (k == k0) with
  | true => rw [if_pos (beq_iff_eq.mp hb)]
  | false =>
      rw [if_neg (ne_of_beq_false hb)]
      rfl

theorem jsSet_cons_eq {k0 k : PostureState} (v0 v : ℚ) (rest : List (PostureState × ℚ))
    (h : k0 = k) :
    jsSet ((k0, v0) :: rest : JsMap) k v = (k0, v) :: rest := by
  rw [jsSet, if_pos h]

theorem jsSet_cons_ne {k0 k : PostureState} (v0 v : ℚ) (rest : List (PostureState × ℚ))
    (h : k0 ≠ k) :
    jsSet ((k0, v0) :: rest : JsMap) k v = (k0, v0) :: jsSet rest k v := by
  rw [jsSet, if_neg h]

theorem jsGet_jsSet_self (m : JsMap) (k : PostureState) (v : ℚ) :
    jsGet (jsSet m k v) k = some v := by
  induction m with
  | nil => simp [jsSet, jsGet_cons]
  | cons kv rest ih =>
      rcases kv with ⟨k0, v0⟩
      rw [jsSet]
      by_cases h : k0 = k
      · rw [if_pos h, jsGet_cons, if_pos h.symm]
      · rw [if_neg h, jsGet_cons, if_neg (fun hh => h hh.symm)]
        exact ih

theorem jsGetD_jsSet_self (m : JsMap) (k : PostureState) (v : ℚ) :
    jsGetD (jsSet m k v) k = v := by
  rw [jsGetD, jsGet_jsSet_self]
  rfl

/-- Unfold `badSum` over a cons cell. -/
theorem badSum_cons (k : PostureState) (v : ℚ) (rest : List (PostureState × ℚ)) :
    badSum (((k, v) :: rest : List (PostureState × ℚ)) : JsMap) =
      (if isBadState k = true then v else 0) + badSum rest := by
  by_cases h : isBadState k = true
  · rw [if_pos h, badSum, List.filter_cons, if_pos (by simpa using h)]
    simp [badSum]
  · rw [if_neg h, badSum, List.filter_cons, if_neg (by simpa using h)]
    simp [badSum]

theorem badSum_jsSet_acc (m : JsMap) (k : PostureState) (dt : ℚ) :
    badSum (jsSet m k (jsGetD m k + dt)) =
      badSum m + (if isBadState k = true then dt else 0) := by
  induction m with
  | nil =>
      show badSum [(k, jsGetD ([] : JsMap) k + dt)] = badSum ([] : JsMap) + _
      rw [show jsGetD ([] : JsMap) k = 0 from rfl, badSum_cons]
      by_cases h : isBadState k = true <;> simp [h, badSum]
  | cons kv rest ih =>
      rcases kv with ⟨k0, v0⟩
      have hget : jsGetD (((k0, v0) :: rest : List (PostureState × ℚ)) : JsMap) k =
          if k = k0 then v0 else jsGetD rest k := by
        rw [jsGetD, jsGet_cons]
        by_cases h : k = k0
        · rw [if_pos h, if_pos h]
          rfl
        · rw [if_neg h, if_neg h]
          rfl
      by_cases h : k0 = k
      · subst h
        rw [hget, if_pos rfl, jsSet_cons_eq _ _ _ rfl, badSum_cons, badSum_cons]
        by_cases hb : isBadState k0 = true <;> simp [hb] <;> ring
      · rw [hget, if_neg (fun hh => h hh.symm), jsSet_cons_ne _ _ _ h, badSum_cons, ih,
          badSum_cons]
        ring

theorem accum_badSum_fold (actives : List PostureState) :
    ∀ m : JsMap, ∀ dt : ℚ,
      badSum (actives.foldl (fun acc s => jsSet acc s (jsGetD acc s + dt)) m) =
        badSum m + dt * ((actives.countP (fun s => isBadState s)) : ℚ) := by
  induction actives with
  | nil => intro m dt; simp
  | cons s rest ih =>
      intro m dt
      rw [List.foldl_cons, ih, badSum_jsSet_acc, List.countP_cons]
      by_cases hb : isBadState s = true
      · rw [if_pos hb, if_pos (by simpa using hb)]
        push_cast
        ring
      · rw [if_neg hb, if_neg (by simpa using hb)]
        push_cast
        ring

theorem accumStateMs_badSum (m : JsMap) (actives : List PostureState) (dt : ℚ)
    (hdt : 0 ≤ dt) :
    badSum m ≤ badSum (accumStateMs m actives dt) ∧
      (actives.any isBadState = true →
        badSum m + dt ≤ badSum (accumStateMs m actives dt)) := by
  by_cases hemp : actives.isEmpty = true
  · rw [accumStateMs, if_pos hemp]
    have : isBadState PostureState.good = false := rfl
    rw [badSum_jsSet_acc]
    constructor
    · simp [this]
    · intro hany
      obtain ⟨s, hs, _⟩ := List.any_eq_true.mp hany
      rw [List.isEmpty_iff.mp hemp] at hs
      cases hs
  · rw [accumStateMs, if_neg hemp, accum_badSum_fold]
    constructor
    · have : 0 ≤ dt * ((actives.countP (fun s => isBadState s)) : ℚ) := by
        apply mul_nonneg hdt
        positivity
      linarith
    · intro hany
      obtain ⟨s, hs, hbs⟩ := List.any_eq_true.mp hany
      have hcount : 0 < actives.countP (fun s => isBadState s) :=
        List.countP_pos_iff.mpr ⟨s, hs, hbs⟩
      have h1 : (1 : ℚ) ≤ ((actives.countP (fun s => isBadState s)) : ℚ) := by
        exact_mod_cast hcount
      nlinarith

/-- The `topBad` fold: either nothing beat the accumulator and every bad
entry is at most its value, or the result is a bad entry of the list
whose value is the (strict over the accumulator) maximum of the bad
entries. -/
theorem topFold_spec (l : List (PostureState × ℚ)) :
    ∀ acc : ℚ × Option PostureState,
      (l.foldl topStep acc = acc ∧
        ∀ kv ∈ l, isBadState kv.1 = true → kv.2 ≤ acc.1) ∨
      (∃ kv ∈ l, isBadState kv.1 = true ∧
        (l.foldl topStep acc).2 = some kv.1 ∧ (l.foldl topStep acc).1 = kv.2 ∧
        acc.1 < kv.2 ∧
        ∀ kv2 ∈ l, isBadState kv2.1 = true → kv2.2 ≤ (l.foldl topStep acc).1) := by
  induction l with
  | nil => intro acc; left; exact ⟨rfl, by simp⟩
  | cons kv rest ih =>
      intro acc
      rw [List.foldl_cons]
      by_cases hc : isBadState kv.1 = true ∧ acc.1 < kv.2
      · have hstep : topStep acc kv = (kv.2, some kv.1) := by
          rw [topStep, if_pos (by exact ⟨hc.1, hc.2⟩)]
        rw [hstep]
        rcases ih (kv.2, some kv.1) with ⟨heq, hbound⟩ | ⟨kv2, hmem, hbad, hsnd, hfst, hlt, hbound⟩
        · right
          refine ⟨kv, by simp, hc.1, ?_, ?_, hc.2, ?_⟩
          · rw [heq]
          · rw [heq]
          · intro kv2 hm hb
            rcases List.mem_cons.mp hm with h | h
            · rw [heq, h]
            · rw [heq]
              exact hbound kv2 h hb
        · right
          refine ⟨kv2, List.mem_cons_of_mem _ hmem, hbad, hsnd, hfst, ?_, ?_⟩
          · calc acc.1 < kv.2 := hc.2
              _ < kv2.2 := hlt
          · intro kv3 hm hb
            rcases List.mem_cons.mp hm with h | h
            · rw [h, hfst]
              exact le_of_lt hlt
            · exact hbound kv3 h hb
      · have hstep : topStep acc kv = acc := by
          rw [topStep, if_neg hc]
        rw [hstep]
        rcases ih acc with ⟨heq, hbound⟩ | ⟨kv2, hmem, hbad, hsnd, hfst, hlt, hbound⟩
        · left
          refine ⟨heq, ?_⟩
          intro kv2 hm hb
          rcases List.mem_cons.mp hm with h | h
          · subst h
            by_contra hgt
            exact hc ⟨hb, lt_of_not_le hgt⟩
          · exact hbound kv2 h hb
        · right
          refine ⟨kv2, List.mem_cons_of_mem _ hmem, hbad, hsnd, hfst, hlt, ?_⟩
          intro kv3 hm hb
          rcases List.mem_cons.mp hm with h | h
          · subst h
            have hacc : kv3.2 ≤ acc.1 := by
              by_contra hgt
              exact hc ⟨hb, lt_of_not_le hgt⟩
            rw [hfst]
            exact le_of_lt (lt_of_le_of_lt hacc hlt)
          · exact hbound kv3 h hb

theorem sum_nonpos_of_all {l : List ℚ} (h : ∀ x ∈ l, x ≤ 0) : l.sum ≤ 0 := by
  induction l with
  | nil => simp
  | cons x rest ih =>
      rw [List.sum_cons]
      have hx := h x (by simp)
      have hr := ih (fun y hy => h y (List.mem_cons_of_mem _ hy))
      linarith

/-- When the recorded bad time is positive, `topBadOf` returns a bad
entry whose value is the maximum over all bad entries of the map. -/
theorem topBadOf_of_badSum_pos (m : JsMap) (hpos : 0 < badSum m) :
    ∃ k v, topBadOf m = some k ∧ (k, v) ∈ m ∧ isBadState k = true ∧ 0 < v ∧
      ∀ kv ∈ m, isBadState kv.1 = true → kv.2 ≤ v := by
  rcases topFold_spec m ((0 : ℚ), (none : Option PostureState)) with
    ⟨heq, hbound⟩ | ⟨kv, hmem, hbad, hsnd, hfst, hlt, hbound⟩
  · exfalso
    have : badSum m ≤ 0 := by
      rw [badSum]
      apply sum_nonpos_of_all
      intro x hx
      obtain ⟨kv, hkv, rfl⟩ := List.mem_map.mp hx
      have := List.of_mem_filter hkv
      exact hbound kv (List.mem_of_mem_filter hkv) (by simpa using this)
    linarith
  · refine ⟨kv.1, kv.2, ?_, by simpa using hmem, hbad, by simpa using hlt, ?_⟩
    · rw [topBadOf, hsnd]
    · intro kv2 hm hb
      have := hbound kv2 hm hb
      rw [hfst] at this
      exact this

/-! ### contStep and immediateHit lemmas -/

theorem jsGet_append (m1 m2 : List (PostureState × ℚ)) (k : PostureState) :
    jsGet ((m1 ++ m2 : List (PostureState × ℚ)) : JsMap) k =
      match jsGet (m1 : JsMap) k with
      | some v => some v
      | none => jsGet (m2 : JsMap) k := by
  induction m1 with
  | nil => rfl
  | cons kv rest ih =>
      rcases kv with ⟨k0, v0⟩
      show jsGet (((k0, v0) :: (rest ++ m2) : List (PostureState × ℚ)) : JsMap) k = _
      rw [jsGet_cons, jsGet_cons]
      by_cases h : k = k0
      · rw [if_pos h, if_pos h]
      · rw [if_neg h, if_neg h, ih]

theorem jsGet_pairs_none (dt : ℚ) (k : PostureState) :
    ∀ l : List PostureState, k ∉ l →
      jsGet ((l.map (fun kk => (kk, dt)) : List (PostureState × ℚ)) : JsMap) k = none := by
  intro l
  induction l with
  | nil => intro _; rfl
  | cons k0 rest ih =>
      intro hk
      rw [List.map_cons]
      show jsGet (((k0, dt) :: rest.map (fun kk => (kk, dt)) : List (PostureState × ℚ)) : JsMap) k = none
      rw [jsGet_cons, if_neg (fun h => hk (by rw [h]; exact List.mem_cons_self k0 _))]
      exact ih (fun h => hk (List.mem_cons_of_mem _ h))

theorem jsGet_contMap (cont : List (PostureState × ℚ)) (activeSet : List PostureState)
    (dt : ℚ) (k : PostureState) (hk : activeSet.contains k = false) :
    jsGet ((cont.map
        (fun kv => (kv.1, if activeSet.contains kv.1 then kv.2 + dt else 0)) :
        List (PostureState × ℚ)) : JsMap) k =
      (jsGet (cont : JsMap) k).map (fun _ => (0 : ℚ)) := by
  induction cont with
  | nil => rfl
  | cons kv rest ih =>
      rcases kv with ⟨k0, v0⟩
      rw [List.map_cons]
      show jsGet (((k0, if activeSet.contains k0 then v0 + dt else 0) ::
          rest.map _ : List (PostureState × ℚ)) : JsMap) k = _
      rw [jsGet_cons, jsGet_cons]
      by_cases h : k = k0
      · rw [if_pos h, if_pos h]
        rw [show activeSet.contains k0 = false from h ▸ hk]
        rfl
      · rw [if_neg h, if_neg h, ih]

/-- The instant an issue is not in the active set for a tick, its
continuous streak reads as 0. -/
theorem contStep_not_active (cont : JsMap) (activeSet : List PostureState) (dt : ℚ)
    (k : PostureState) (hk : activeSet.contains k = false) :
    jsGetD (contStep cont activeSet dt) k = 0 := by
  have hkmem : k ∉ activeSet := fun h => by
    rw [contains_true.mpr h] at hk
    cases hk
  have hfk : k ∉ activeSet.filter (fun kk => (jsGet cont kk).isNone) :=
    fun h => hkmem (List.mem_of_mem_filter h)
  rw [contStep, jsGetD, jsGet_append, jsGet_contMap cont activeSet dt k hk,
    jsGet_pairs_none dt k _ hfk]
  cases jsGet (cont : JsMap) k <;> rfl

theorem immediateHit_some_cooled {c : Bool} {actives : List PostureState} {cont : JsMap}
    {s : PostureState} (h : immediateHit c actives cont = some s) : c = true := by
  cases c with
  | true => rfl
  | false => rw [immediateHit] at h; cases h

theorem immediateHit_true (actives : List PostureState) (cont : JsMap) :
    immediateHit true actives cont =
      actives.find? (fun s => isBadState s && decide (jsGetD cont s ≥ continuousBadMs)) := by
  rw [immediateHit, if_pos rfl]

theorem immediateHit_some_spec {c : Bool} {actives : List PostureState} {cont : JsMap}
    {s : PostureState} (h : immediateHit c actives cont = some s) :
    s ∈ actives ∧ isBadState s = true ∧ jsGetD cont s ≥ continuousBadMs := by
  have hc := immediateHit_some_cooled h
  subst hc
  rw [immediateHit_true] at h
  have hp := List.find?_some h
  have hm := List.mem_of_find?_eq_some h
  have hp2 : isBadState s = true ∧ decide (jsGetD cont s ≥ continuousBadMs) = true := by
    simpa using hp
  exact ⟨hm, hp2.1, of_decide_eq_true hp2.2⟩

/-! ### coachAccum projections -/

theorem coachAccum_lastTick (now last : ℚ) (actives : List PostureState) (st : CoachState) :
    (coachAccum now last actives st).lastTick = some now := rfl

theorem coachAccum_windowStart (now last : ℚ) (actives : List PostureState) (st : CoachState) :
    (coachAccum now last actives st).windowStart = some (st.windowStart.getD now) := rfl

theorem coachAccum_lastReminderAt (now last : ℚ) (actives : List PostureState)
    (st : CoachState) :
    (coachAccum now last actives st).lastReminderAt = st.lastReminderAt := rfl

theorem coachAccum_stateMs (now last : ℚ) (actives : List PostureState) (st : CoachState) :
    (coachAccum now last actives st).stateMs =
      accumStateMs st.stateMs actives (max 0 (now - last)) := rfl

theorem coachAccum_contMs (now last : ℚ) (actives : List PostureState) (st : CoachState) :
    (coachAccum now last actives st).contMs =
      contStep st.contMs (coachActiveSet actives) (max 0 (now - last)) := rfl

theorem coachAccum_badMs (now last : ℚ) (actives : List PostureState) (st : CoachState) :
    (coachAccum now last actives st).badMs =
      if actives.any isBadState then st.badMs + max 0 (now - last) else st.badMs := rfl

/-! ### Remaining quiet branches of coachTickGo -/

theorem coachTickGo_noWindow {now last : ℚ} {actives : List PostureState}
    {primary : PostureState} {st : CoachState}
    (hs : immediateHit (decide (now - st.lastReminderAt ≥ cooldownMs)) actives
            (coachAccum now last actives st).contMs = none)
    (hw : st.windowStart = none) :
    coachTickGo now actives primary last st = (coachAccum now last actives st, []) := by
  rw [coachTickGo]
  rw [hs, hw]
  simp only [Option.getD_none]
  by_cases h0 : now = 0
  · rw [if_pos h0, if_neg (by rw [coachWindowMs]; norm_num)]
  · rw [if_neg h0, if_neg (by rw [coachWindowMs]; norm_num)]

theorem coachTickGo_zeroWindow {now last : ℚ} {actives : List PostureState}
    {primary : PostureState} {st : CoachState} {w : ℚ}
    (hs : immediateHit (decide (now - st.lastReminderAt ≥ cooldownMs)) actives
            (coachAccum now last actives st).contMs = none)
    (hw : st.windowStart = some w) (hw0 : w = 0) :
    coachTickGo now actives primary last st = (coachAccum now last actives st, []) := by
  rw [coachTickGo]
  rw [hs, hw]
  simp only [Option.getD_some]
  rw [if_pos hw0, if_neg (by rw [coachWindowMs]; norm_num)]

theorem coachTickGo_window_emit {now last : ℚ} {actives : List PostureState}
    {primary : PostureState} {st : CoachState} {w : ℚ}
    (hs : immediateHit (decide (now - st.lastReminderAt ≥ cooldownMs)) actives
            (coachAccum now last actives st).contMs = none)
    (hw : st.windowStart = some w) (hw0 : w ≠ 0) (he : now - w ≥ coachWindowMs)
    (hf : (decide (now - st.lastReminderAt ≥ cooldownMs) &&
           decide ((coachAccum now last actives st).badMs ≥ badDominanceMs)) = true) :
    coachTickGo now actives primary last st =
      ({ coachAccum now last actives st with
         windowStart := some now, goodMs := 0, badMs := 0, stateMs := [],
         lastReminderAt := now },
       [MonitoringEvent.coach_reminder
          { states := if actives.isEmpty then [PostureState.good] else actives,
            primary := if actives.isEmpty then PostureState.good else primary,
            windowMs := coachWindowMs,
            goodMs := (coachAccum now last actives st).goodMs,
            badMs := (coachAccum now last actives st).badMs,
            topBad := topBadOf (coachAccum now last actives st).stateMs }]) := by
  rw [coachTickGo_window hs hw hw0 he]
  rw [if_pos hf, if_pos hf]

theorem coachTickGo_window_skip {now last : ℚ} {actives : List PostureState}
    {primary : PostureState} {st : CoachState} {w : ℚ}
    (hs : immediateHit (decide (now - st.lastReminderAt ≥ cooldownMs)) actives
            (coachAccum now last actives st).contMs = none)
    (hw : st.windowStart = some w) (hw0 : w ≠ 0) (he : now - w ≥ coachWindowMs)
    (hf : ¬ ((decide (now - st.lastReminderAt ≥ cooldownMs) &&
           decide ((coachAccum now last actives st).badMs ≥ badDominanceMs)) = true)) :
    coachTickGo now actives primary last st =
      ({ coachAccum now last actives st with
         windowStart := some now, goodMs := 0, badMs := 0, stateMs := [],
         lastReminderAt := st.lastReminderAt },
       []) := by
  rw [coachTickGo_window hs hw hw0 he]
  rw [if_neg hf, if_neg hf]

/-! ### CoachInv: initial state, preservation, reachability -/

theorem coachInv_init : CoachInv coachInit := by
  constructor
  · exact le_of_eq rfl
  · rfl

theorem coachAccum_badMs_le (now last : ℚ) (actives : List PostureState) (st : CoachState)
    (hbs : st.badMs ≤ badSum st.stateMs) :
    (coachAccum now last actives st).badMs ≤
      badSum (coachAccum now last actives st).stateMs := by
  have hdt : (0 : ℚ) ≤ max 0 (now - last) := le_max_left _ _
  rw [coachAccum_badMs, coachAccum_stateMs]
  obtain ⟨hmono, hbad⟩ := accumStateMs_badSum st.stateMs actives (max 0 (now - last)) hdt
  by_cases hany : actives.any isBadState = true
  · rw [if_pos hany]
    have := hbad hany
    linarith
  · rw [if_neg hany]
    linarith

theorem coachAccum_inv (now last : ℚ) (actives : List PostureState) (st : CoachState)
    (hinv : CoachInv st) (hnow : 0 < now) :
    CoachInv (coachAccum now last actives st) := by
  obtain ⟨hbs, hws⟩ := hinv
  constructor
  · exact coachAccum_badMs_le now last actives st hbs
  · rw [coachAccum_windowStart]
    cases hw : st.windowStart with
    | none =>
        show windowStartPos (some now) = true
        rw [windowStartPos]
        exact decide_eq_true hnow
    | some w =>
        rw [hw] at hws
        show windowStartPos (some w) = true
        exact hws

theorem coachTick_inv (now : ℚ) (actives : List PostureState) (primary : PostureState)
    (st : CoachState) (hinv : CoachInv st) (hnow : 0 < now) :
    CoachInv (coachTick now actives primary st).1 := by
  by_cases hp : primary = PostureState.no_person
  · rw [coachTick_skip now actives st hp]
    exact hinv
  cases hl : st.lastTick with
  | none =>
      rw [coachTick_init now actives st hp hl]
      refine ⟨hinv.1, ?_⟩
      show windowStartPos (some now) = true
      rw [windowStartPos]
      exact decide_eq_true hnow
  | some last =>
      rw [coachTick_some now actives st hp hl]
      have haccinv := coachAccum_inv now last actives st hinv hnow
      cases hhit : immediateHit (decide (now - st.lastReminderAt ≥ cooldownMs)) actives
          (coachAccum now last actives st).contMs with
      | some s =>
          rw [coachTickGo_immediate hhit]
          exact ⟨haccinv.1, haccinv.2⟩
      | none =>
          cases hw : st.windowStart with
          | none =>
              rw [coachTickGo_noWindow hhit hw]
              exact haccinv
          | some w =>
              by_cases hw0 : w = 0
              · rw [coachTickGo_zeroWindow hhit hw hw0]
                exact haccinv
              by_cases he : now - w ≥ coachWindowMs
              · rw [coachTickGo_window hhit hw hw0 he]
                refine ⟨le_of_eq rfl, ?_⟩
                show windowStartPos (some now) = true
                rw [windowStartPos]
                exact decide_eq_true hnow
              · rw [coachTickGo_quiet hhit hw hw0 he]
                exact haccinv

/-- Every state reachable by a coaching run with positive tick times
satisfies `CoachInv`. -/
theorem coachRun_inv (inputs : List CoachInput) (hpos : ∀ inp ∈ inputs, 0 < inp.1) :
    CoachInv (coachRun inputs).1 := by
  rw [coachRun]
  have main : ∀ (l : List CoachInput) (acc : CoachState × List (ℚ × MonitoringEvent)),
      (∀ inp ∈ l, 0 < inp.1) → CoachInv acc.1 →
      CoachInv (l.foldl coachStep acc).1 := by
    intro l
    induction l with
    | nil => intro acc _ h; exact h
    | cons inp rest ih =>
        intro acc hl hacc
        rw [List.foldl_cons]
        refine ih _ (fun i hi => hl i (List.mem_cons_of_mem _ hi)) ?_
        show CoachInv (coachTick inp.1 inp.2.1 inp.2.2 acc.1).1
        exact coachTick_inv _ _ _ _ hacc (hl inp (List.mem_cons_self _ _))
  exact main inputs _ hpos coachInv_init

/-! ### Per-tick emission shape -/

/-- Every tick emits at most one event; an emission happens only when
the cooldown has elapsed, and it sets `lastReminderAt` to the tick time;
a tick without an emission leaves `lastReminderAt` unchanged. -/
theorem coachTick_cases (now : ℚ) (actives : List PostureState) (primary : PostureState)
    (st : CoachState) :
    ((coachTick now actives primary st).2 = [] ∧
      (coachTick now actives primary st).1.lastReminderAt = st.lastReminderAt) ∨
    (∃ e, (coachTick now actives primary st).2 = [e] ∧
      now - st.lastReminderAt ≥ cooldownMs ∧
      (coachTick now actives primary st).1.lastReminderAt = now) := by
  by_cases hp : primary = PostureState.no_person
  · rw [coachTick_skip now actives st hp]
    exact Or.inl ⟨rfl, rfl⟩
  cases hl : st.lastTick with
  | none =>
      rw [coachTick_init now actives st hp hl]
      exact Or.inl ⟨rfl, rfl⟩
  | some last =>
      rw [coachTick_some now actives st hp hl]
      cases hhit : immediateHit (decide (now - st.lastReminderAt ≥ cooldownMs)) actives
          (coachAccum now last actives st).contMs with
      | some s =>
          rw [coachTickGo_immediate hhit]
          refine Or.inr ⟨_, rfl, ?_, rfl⟩
          exact of_decide_eq_true (immediateHit_some_cooled hhit)
      | none =>
          cases hw : st.windowStart with
          | none =>
              rw [coachTickGo_noWindow hhit hw]
              exact Or.inl ⟨rfl, coachAccum_lastReminderAt now last actives st⟩
          | some w =>
              by_cases hw0 : w = 0
              · rw [coachTickGo_zeroWindow hhit hw hw0]
                exact Or.inl ⟨rfl, coachAccum_lastReminderAt now last actives st⟩
              by_cases he : now - w ≥ coachWindowMs
              · by_cases hfired : (decide (now - st.lastReminderAt ≥ cooldownMs) &&
                    decide ((coachAccum now last actives st).badMs ≥ badDominanceMs)) = true
                · rw [coachTickGo_window_emit hhit hw hw0 he hfired]
                  refine Or.inr ⟨_, rfl, ?_, rfl⟩
                  have h2 : decide (now - st.lastReminderAt ≥ cooldownMs) = true ∧
                      decide ((coachAccum now last actives st).badMs ≥ badDominanceMs) =
                        true := by
                    simpa using hfired
                  exact of_decide_eq_true h2.1
                · rw [coachTickGo_window_skip hhit hw hw0 he hfired]
                  exact Or.inl ⟨rfl, rfl⟩
              · rw [coachTickGo_quiet hhit hw hw0 he]
                exact Or.inl ⟨rfl, coachAccum_lastReminderAt now last actives st⟩

/-! ### Run-level cooldown separation -/

theorem cooldown_pos : (0 : ℚ) < cooldownMs := by
  rw [cooldownMs]
  norm_num

theorem coachStep_eq (acc : CoachState × List (ℚ × MonitoringEvent)) (inp : CoachInput) :
    coachStep acc inp =
      ((coachTick inp.1 inp.2.1 inp.2.2 acc.1).1,
       acc.2 ++ (coachTick inp.1 inp.2.1 inp.2.2 acc.1).2.map (fun e => (inp.1, e))) := rfl

theorem coachStep_mk (stA : CoachState) (evs : List (ℚ × MonitoringEvent)) (now : ℚ)
    (as : List PostureState) (p : PostureState) :
    coachStep (stA, evs) ((now, as, p) : CoachInput) =
      ((coachTick now as p stA).1,
       evs ++ (coachTick now as p stA).2.map (fun e => (now, e))) := rfl

theorem coachStep_sep (acc : CoachState × List (ℚ × MonitoringEvent)) (inp : CoachInput)
    (h1 : ∀ te ∈ acc.2, te.1 ≤ acc.1.lastReminderAt)
    (h2 : List.Pairwise (fun a b : ℚ × MonitoringEvent => cooldownMs ≤ b.1 - a.1) acc.2) :
    (∀ te ∈ (coachStep acc inp).2, te.1 ≤ (coachStep acc inp).1.lastReminderAt) ∧
      List.Pairwise (fun a b : ℚ × MonitoringEvent => cooldownMs ≤ b.1 - a.1)
        (coachStep acc inp).2 := by
  rw [coachStep_eq]
  rcases coachTick_cases inp.1 inp.2.1 inp.2.2 acc.1 with
    ⟨hnil, hrem⟩ | ⟨e, hone, hcool, hrem⟩
  · rw [hnil, hrem]
    simp only [List.map_nil, List.append_nil]
    exact ⟨h1, h2⟩
  · rw [hone, hrem]
    have hle : acc.1.lastReminderAt ≤ inp.1 := by
      have := cooldown_pos
      linarith
    constructor
    · intro te hte
      rcases List.mem_append.mp hte with h | h
      · exact le_trans (h1 te h) hle
      · simp only [List.map_cons, List.map_nil, List.mem_singleton] at h
        rw [h]
    · refine List.pairwise_append.mpr ⟨h2, by simp, ?_⟩
      intro a ha b hb
      simp only [List.map_cons, List.map_nil, List.mem_singleton] at hb
      rw [hb]
      have := h1 a ha
      simp only []
      linarith

theorem coachRun_sep_aux (inputs : List CoachInput) :
    ∀ acc : CoachState × List (ℚ × MonitoringEvent),
      (∀ te ∈ acc.2, te.1 ≤ acc.1.lastReminderAt) →
      List.Pairwise (fun a b : ℚ × MonitoringEvent => cooldownMs ≤ b.1 - a.1) acc.2 →
      (∀ te ∈ (inputs.foldl coachStep acc).2,
         te.1 ≤ (inputs.foldl coachStep acc).1.lastReminderAt) ∧
        List.Pairwise (fun a b : ℚ × MonitoringEvent => cooldownMs ≤ b.1 - a.1)
          (inputs.foldl coachStep acc).2 := by
  induction inputs with
  | nil => intro acc h1 h2; exact ⟨h1, h2⟩
  | cons inp rest ih =>
      intro acc h1 h2
      rw [List.foldl_cons]
      obtain ⟨h1s, h2s⟩ := coachStep_sep acc inp h1 h2
      exact ih _ h1s h2s

/-- Claim C3, counterexample: in the run `cexCooldown` a first reminder
fires at t = 360,001 ms; at t = 480,001 ms the same issue has again a
continuous streak of 120,000 ms (an otherwise-qualifying immediate
trigger within the cooldown), it is suppressed — but the issue's
`continuousMs` is NOT reset to 0 as the claim states: it stays at
120,000 ms (the reset only happens inside the cooled-down branch). -/
theorem coach_cooldown_suppressed_cex :
    (coachRun cexCooldown).2.map Prod.fst = [360001] ∧
    jsGetD (coachRun cexCooldown).1.contMs PostureState.too_close = 120000 ∧
    (120000 : ℚ) ≥ continuousBadMs ∧
    (coachRun cexCooldown).1.lastReminderAt = 360001 ∧
    (480001 : ℚ) - 360001 < cooldownMs := by
  have t1 : coachTick 1 [PostureState.too_close] PostureState.too_close coachInit =
      ({ lastTick := some 1, windowStart := some 1, goodMs := 0, badMs := 0,
         stateMs := [], contMs := [], lastReminderAt := 0 }, []) := by
    rw [coachTick_init 1 [PostureState.too_close] coachInit (by decide) rfl]
    rfl
  have t2 : coachTick 360001 [PostureState.too_close] PostureState.too_close
      { lastTick := some 1, windowStart := some 1, goodMs := 0, badMs := 0,
        stateMs := [], contMs := [], lastReminderAt := 0 } =
      ({ lastTick := some 360001, windowStart := some 1, goodMs := 0, badMs := 360000,
         stateMs := [(PostureState.too_close, 360000)],
         contMs := [(PostureState.too_close, 0)], lastReminderAt := 360001 },
       [MonitoringEvent.coach_reminder
          { states := [PostureState.too_close], primary := PostureState.too_close,
            windowMs := coachWindowMs, goodMs := 0, badMs := 360000,
            topBad := some PostureState.too_close }]) := by
    norm_num [coachTick, coachTickGo, coachAccum, accumStateMs, contStep, coachActiveSet,
      jsDedup, jsSet, jsGet, jsGetD, immediateHit, isBadState, coachWindowMs,
      badDominanceMs, continuousBadMs, cooldownMs, List.lookup, List.filter] <;> decide
  have t3 : coachTick 480001 [PostureState.too_close] PostureState.too_close
      { lastTick := some 360001, windowStart := some 1, goodMs := 0, badMs := 360000,
        stateMs := [(PostureState.too_close, 360000)],
        contMs := [(PostureState.too_close, 0)], lastReminderAt := 360001 } =
      ({ lastTick := some 480001, windowStart := some 480001, goodMs := 0, badMs := 0,
         stateMs := [], contMs := [(PostureState.too_close, 120000)],
         lastReminderAt := 360001 }, []) := by
    norm_num [coachTick, coachTickGo, coachAccum, accumStateMs, contStep, coachActiveSet,
      jsDedup, jsSet, jsGet, jsGetD, immediateHit, topBadOf, topStep, isBadState,
      coachWindowMs, badDominanceMs, continuousBadMs, cooldownMs, List.lookup,
      List.filter] <;> decide
  have hrun : coachRun cexCooldown =
      ({ lastTick := some 480001, windowStart := some 480001, goodMs := 0, badMs := 0,
         stateMs := [], contMs := [(PostureState.too_close, 120000)],
         lastReminderAt := 360001 },
       [((360001 : ℚ),
         MonitoringEvent.coach_reminder
          { states := [PostureState.too_close], primary := PostureState.too_close,
            windowMs := coachWindowMs, goodMs := 0, badMs := 360000,
            topBad := some PostureState.too_close })]) := by
    have s1 : coachStep (coachInit, []) (((1 : ℚ), [PostureState.too_close],
        PostureState.too_close) : CoachInput) =
        ({ lastTick := some 1, windowStart := some 1, goodMs := 0, badMs := 0,
           stateMs := [], contMs := [], lastReminderAt := 0 }, []) := by
      rw [coachStep_mk, t1]
      rfl
    have s2 : coachStep
        (({ lastTick := some 1, windowStart := some 1, goodMs := 0, badMs := 0,
            stateMs := [], contMs := [], lastReminderAt := 0 } : CoachState), [])
        (((360001 : ℚ), [PostureState.too_close], PostureState.too_close) : CoachInput) =
        ({ lastTick := some 360001, windowStart := some 1, goodMs := 0, badMs := 360000,
           stateMs := [(PostureState.too_close, 360000)],
           contMs := [(PostureState.too_close, 0)], lastReminderAt := 360001 },
         [((360001 : ℚ), MonitoringEvent.coach_reminder
            { states := [PostureState.too_close], primary := PostureState.too_close,
              windowMs := coachWindowMs, goodMs := 0, badMs := 360000,
              topBad := some PostureState.too_close })]) := by
      rw [coachStep_mk, t2]
      rfl
    have s3 : coachStep
        (({ lastTick := some 360001, windowStart := some 1, goodMs := 0, badMs := 360000,
            stateMs := [(PostureState.too_close, 360000)],
            contMs := [(PostureState.too_close, 0)],
            lastReminderAt := 360001 } : CoachState),
         [((360001 : ℚ), MonitoringEvent.coach_reminder
            { states := [PostureState.too_close], primary := PostureState.too_close,
              windowMs := coachWindowMs, goodMs := 0, badMs := 360000,
              topBad := some PostureState.too_close })])
        (((480001 : ℚ), [PostureState.too_close], PostureState.too_close) : CoachInput) =
        ({ lastTick := some 480001, windowStart := some 480001, goodMs := 0, badMs := 0,
           stateMs := [], contMs := [(PostureState.too_close, 120000)],
           lastReminderAt := 360001 },
         [((360001 : ℚ), MonitoringEvent.coach_reminder
            { states := [PostureState.too_close], primary := PostureState.too_close,
              windowMs := coachWindowMs, goodMs := 0, badMs := 360000,
              topBad := some PostureState.too_close })]) := by
      rw [coachStep_mk, t3]
      rfl
    rw [coachRun, cexCooldown, List.foldl_cons, s1, List.foldl_cons, s2,
      List.foldl_cons, s3, List.foldl_nil]
  rw [hrun]
  refine ⟨rfl, ?_, by rw [continuousBadMs], rfl, by rw [cooldownMs]; norm_num⟩
  rw [jsGetD, jsGet_cons, if_pos rfl]
  rfl

/-- Claim C3, amended: in every run any two emitted `coach_reminder`
events are at least `cooldownMs` (360,000 ms) apart — of two
otherwise-qualifying triggers within the cooldown only the first emits;
a suppressed window-end trigger still rolls the window (resetting
`windowStart`, `goodMs`, `badMs` and the per-issue map), but a
cooldown-suppressed immediate trigger does NOT reset the issue's
`continuousMs` (the streak keeps accumulating; it is reset only when a
reminder actually fires or the issue goes inactive for a tick). -/
theorem coach_cooldown_enforcement :
    (∀ inputs : List CoachInput,
       List.Chain' (fun a b : CoachInput => a.1 < b.1) inputs →
       List.Pairwise (fun a b : ℚ × MonitoringEvent => cooldownMs ≤ b.1 - a.1)
         (coachRun inputs).2) ∧
    (∀ (now last w : ℚ) (actives : List PostureState) (primary : PostureState)
       (st : CoachState),
       primary ≠ PostureState.no_person → st.lastTick = some last →
       immediateHit (decide (now - st.lastReminderAt ≥ cooldownMs)) actives
           (coachAccum now last actives st).contMs = none →
       st.windowStart = some w → w ≠ 0 → now - w ≥ coachWindowMs →
       ¬ (now - st.lastReminderAt ≥ cooldownMs ∧
          (coachAccum now last actives st).badMs ≥ badDominanceMs) →
       (coachTick now actives primary st).2 = [] ∧
       (coachTick now actives primary st).1.windowStart = some now ∧
       (coachTick now actives primary st).1.goodMs = 0 ∧
       (coachTick now actives primary st).1.badMs = 0 ∧
       (coachTick now actives primary st).1.stateMs = []) := by
  constructor
  · intro inputs _
    rw [coachRun]
    exact (coachRun_sep_aux inputs (coachInit, []) (by simp) (by simp)).2
  · intro now last w actives primary st hp hl hni hw hw0 he hsupp
    have hf : ¬ ((decide (now - st.lastReminderAt ≥ cooldownMs) &&
        decide ((coachAccum now last actives st).badMs ≥ badDominanceMs)) = true) := by
      simp only [Bool.and_eq_true, decide_eq_true_eq]
      exact hsupp
    rw [coachTick_some now actives st hp hl, coachTickGo_window_skip hni hw hw0 he hf]
    exact ⟨rfl, rfl, rfl, rfl, rfl⟩

/-- Witness for `coach_cooldown_enforcement`: the run `cexCooldown` has
strictly increasing tick times, so its reminders are pairwise at least
360,000 ms apart; and a concrete suppressed window trigger (not cooled
down at t = 120,001 ms) still rolls the window. -/
theorem coach_cooldown_enforcement_witness :
    (List.Chain' (fun a b : CoachInput => a.1 < b.1) cexCooldown ∧
      List.Pairwise (fun a b : ℚ × MonitoringEvent => cooldownMs ≤ b.1 - a.1)
        (coachRun cexCooldown).2) ∧
    ((coachTick 120001 [PostureState.head_down] PostureState.head_down stFresh).2 = [] ∧
      (coachTick 120001 [PostureState.head_down] PostureState.head_down
          stFresh).1.windowStart = some 120001) := by
  have hchain : List.Chain' (fun a b : CoachInput => a.1 < b.1) cexCooldown := by
    rw [cexCooldown]
    refine List.Chain'.cons (by norm_num) (List.Chain'.cons (by norm_num) ?_)
    exact List.chain'_singleton _
  have hni : immediateHit
      (decide ((120001 : ℚ) - stFresh.lastReminderAt ≥ cooldownMs))
      [PostureState.head_down]
      (coachAccum 120001 1 [PostureState.head_down] stFresh).contMs = none := by
    rw [show (decide ((120001 : ℚ) - stFresh.lastReminderAt ≥ cooldownMs)) = false by
      norm_num [stFresh, cooldownMs]]
    rw [immediateHit, if_neg (by norm_num)]
  have hsupp : ¬ ((120001 : ℚ) - stFresh.lastReminderAt ≥ cooldownMs ∧
      (coachAccum 120001 1 [PostureState.head_down] stFresh).badMs ≥ badDominanceMs) :=
    fun hc => absurd hc.1 (by norm_num [stFresh, cooldownMs])
  have hmain := coach_cooldown_enforcement
  refine ⟨⟨hchain, hmain.1 cexCooldown hchain⟩, ?_⟩
  have h2 := hmain.2 120001 1 1 [PostureState.head_down] PostureState.head_down stFresh
    (by decide) rfl hni rfl (by norm_num) (by norm_num [stFresh, coachWindowMs]) hsupp
  exact ⟨h2.1, h2.2.1⟩

/-- Claim C1, counterexample: in the run `cexImmediate` the issue
`too_close` is active from t = 1 ms and its continuous streak reaches
120,000 ms (= `continuousBadMs`) on the tick at t = 120,001 ms while no
reminder was ever emitted — yet NO `coach_reminder` is emitted, because
`lastReminderAt` is initialized to 0 and the cooldown test
`now − lastReminderAt ≥ 360,000` fails for every `now < 360,000 ms`. -/
theorem coach_immediate_never_fired_cex :
    (coachRun cexImmediate).2 = [] ∧
    (coachRun cexImmediate).1.lastReminderAt = 0 ∧
    jsGetD (coachRun cexImmediate).1.contMs PostureState.too_close = 120000 ∧
    (120000 : ℚ) ≥ continuousBadMs := by
  have t1 : coachTick 1 [PostureState.too_close] PostureState.too_close coachInit =
      ({ lastTick := some 1, windowStart := some 1, goodMs := 0, badMs := 0,
         stateMs := [], contMs := [], lastReminderAt := 0 }, []) := by
    rw [coachTick_init 1 [PostureState.too_close] coachInit (by decide) rfl]
    rfl
  have t2 : coachTick 60001 [PostureState.too_close] PostureState.too_close
      { lastTick := some 1, windowStart := some 1, goodMs := 0, badMs := 0,
        stateMs := [], contMs := [], lastReminderAt := 0 } =
      ({ lastTick := some 60001, windowStart := some 1, goodMs := 0, badMs := 60000,
         stateMs := [(PostureState.too_close, 60000)],
         contMs := [(PostureState.too_close, 60000)], lastReminderAt := 0 }, []) := by
    norm_num [coachTick, coachTickGo, coachAccum, accumStateMs, contStep, coachActiveSet,
      jsDedup, jsSet, jsGet, jsGetD, immediateHit, isBadState, coachWindowMs,
      badDominanceMs, continuousBadMs, cooldownMs, List.lookup, List.filter] <;> decide
  have t3 : coachTick 120001 [PostureState.too_close] PostureState.too_close
      { lastTick := some 60001, windowStart := some 1, goodMs := 0, badMs := 60000,
        stateMs := [(PostureState.too_close, 60000)],
        contMs := [(PostureState.too_close, 60000)], lastReminderAt := 0 } =
      ({ lastTick := some 120001, windowStart := some 120001, goodMs := 0, badMs := 0,
         stateMs := [], contMs := [(PostureState.too_close, 120000)],
         lastReminderAt := 0 }, []) := by
    norm_num [coachTick, coachTickGo, coachAccum, accumStateMs, contStep, coachActiveSet,
      jsDedup, jsSet, jsGet, jsGetD, immediateHit, topBadOf, topStep, isBadState,
      coachWindowMs, badDominanceMs, continuousBadMs, cooldownMs, List.lookup,
      List.filter] <;> decide
  have s1 : coachStep (coachInit, []) (((1 : ℚ), [PostureState.too_close],
      PostureState.too_close) : CoachInput) =
      ({ lastTick := some 1, windowStart := some 1, goodMs := 0, badMs := 0,
         stateMs := [], contMs := [], lastReminderAt := 0 }, []) := by
    rw [coachStep_mk, t1]
    rfl
  have s2 : coachStep
      (({ lastTick := some 1, windowStart := some 1, goodMs := 0, badMs := 0,
          stateMs := [], contMs := [], lastReminderAt := 0 } : CoachState), [])
      (((60001 : ℚ), [PostureState.too_close], PostureState.too_close) : CoachInput) =
      ({ lastTick := some 60001, windowStart := some 1, goodMs := 0, badMs := 60000,
         stateMs := [(PostureState.too_close, 60000)],
         contMs := [(PostureState.too_close, 60000)], lastReminderAt := 0 }, []) := by
    rw [coachStep_mk, t2]
    rfl
  have s3 : coachStep
      (({ lastTick := some 60001, windowStart := some 1, goodMs := 0, badMs := 60000,
          stateMs := [(PostureState.too_close, 60000)],
          contMs := [(PostureState.too_close, 60000)],
          lastReminderAt := 0 } : CoachState), [])
      (((120001 : ℚ), [PostureState.too_close], PostureState.too_close) : CoachInput) =
      ({ lastTick := some 120001, windowStart := some 120001, goodMs := 0, badMs := 0,
         stateMs := [], contMs := [(PostureState.too_close, 120000)],
         lastReminderAt := 0 }, []) := by
    rw [coachStep_mk, t3]
    rfl
  have hrun : coachRun cexImmediate =
      ({ lastTick := some 120001, windowStart := some 120001, goodMs := 0, badMs := 0,
         stateMs := [], contMs := [(PostureState.too_close, 120000)],
         lastReminderAt := 0 }, []) := by
    rw [coachRun, cexImmediate, List.foldl_cons, s1, List.foldl_cons, s2,
      List.foldl_cons, s3, List.foldl_nil]
  rw [hrun]
  refine ⟨rfl, rfl, ?_, by rw [continuousBadMs]⟩
  rw [jsGetD, jsGet_cons, if_pos rfl]
  rfl

/-- Claim C1, amended: on any tick with a person, past the first tick,
where the cooldown has elapsed relative to `lastReminderAt` (which is 0
until a first reminder fires, so "never fired" alone does not satisfy
it) and the immediate scan finds an active bad issue whose continuous
streak has reached `continuousBadMs`, exactly one `coach_reminder` is
emitted carrying that issue as `topBad`, the issue's `continuousMs` is
reset to 0, `lastReminderAt` is set to `now`, and the window-end trigger
is not evaluated: `windowStart` and the window counters keep their
accumulated values. -/
theorem coach_immediate_trigger (now last : ℚ) (actives : List PostureState)
    (primary : PostureState) (st : CoachState) (s : PostureState)
    (hp : primary ≠ PostureState.no_person)
    (hl : st.lastTick = some last)
    (hcool : now - st.lastReminderAt ≥ cooldownMs)
    (hhit : immediateHit true actives (coachAccum now last actives st).contMs = some s) :
    (coachTick now actives primary st).2 =
      [MonitoringEvent.coach_reminder
        { states := actives, primary := primary, windowMs := coachWindowMs,
          goodMs := (coachAccum now last actives st).goodMs,
          badMs := (coachAccum now last actives st).badMs, topBad := some s }] ∧
    jsGetD (coachTick now actives primary st).1.contMs s = 0 ∧
    (coachTick now actives primary st).1.lastReminderAt = now ∧
    (coachTick now actives primary st).1.windowStart =
      some (st.windowStart.getD now) ∧
    (coachTick now actives primary st).1.stateMs =
      accumStateMs st.stateMs actives (max 0 (now - last)) ∧
    (coachTick now actives primary st).1.goodMs =
      (coachAccum now last actives st).goodMs ∧
    (coachTick now actives primary st).1.badMs =
      (coachAccum now last actives st).badMs ∧
    s ∈ actives ∧ isBadState s = true ∧
    jsGetD (coachAccum now last actives st).contMs s ≥ continuousBadMs := by
  have hd : (decide (now - st.lastReminderAt ≥ cooldownMs)) = true := decide_eq_true hcool
  have hhit2 : immediateHit (decide (now - st.lastReminderAt ≥ cooldownMs)) actives
      (coachAccum now last actives st).contMs = some s := by
    rw [hd]
    exact hhit
  obtain ⟨hmem, hbad, hge⟩ := immediateHit_some_spec hhit
  rw [coachTick_some now actives st hp hl, coachTickGo_immediate hhit2]
  refine ⟨rfl, ?_, rfl, rfl, rfl, rfl, rfl, hmem, hbad, hge⟩
  show jsGetD (jsSet (coachAccum now last actives st).contMs s 0) s = 0
  exact jsGetD_jsSet_self _ _ _

/-- Witness for `coach_immediate_trigger`: a cooled-down concrete state
whose `too_close` streak crosses 120,000 ms on this tick. -/
theorem coach_immediate_trigger_witness :
    ((400000 : ℚ) - stStreak.lastReminderAt ≥ cooldownMs ∧
      immediateHit true [PostureState.too_close]
        (coachAccum 400000 0 [PostureState.too_close] stStreak).contMs =
          some PostureState.too_close) ∧
    (coachTick 400000 [PostureState.too_close] PostureState.too_close
        stStreak).1.lastReminderAt = 400000 := by
  have hcool : (400000 : ℚ) - stStreak.lastReminderAt ≥ cooldownMs := by
    norm_num [stStreak, cooldownMs]
  have hhit : immediateHit true [PostureState.too_close]
      (coachAccum 400000 0 [PostureState.too_close] stStreak).contMs =
        some PostureState.too_close := by
    norm_num [immediateHit, coachAccum, stStreak, contStep, coachActiveSet, jsDedup,
      jsSet, jsGet, jsGetD, isBadState, continuousBadMs, List.lookup, List.filter,
      List.find?] <;> decide
  exact ⟨⟨hcool, hhit⟩,
    (coach_immediate_trigger 400000 0 [PostureState.too_close] PostureState.too_close
      stStreak PostureState.too_close (by decide) rfl hcool hhit).2.2.1⟩

/-- Claim C2: on a rollover tick (person present, not the first tick,
immediate trigger did not fire, `now − windowStart ≥ windowMs`, state
reachable so `CoachInv` holds), a `coach_reminder` is emitted iff the
cooldown has elapsed and the accumulated `badMs` is at least
`badDominanceMs`; its `topBad` is a bad issue carrying the largest
per-issue accumulated time of the window; and regardless of emission the
window is rolled: `windowStart = now` and `goodMs`, `badMs`, `perIssueMs`
are cleared. -/
theorem coach_window_trigger (now last w : ℚ) (actives : List PostureState)
    (primary : PostureState) (st : CoachState)
    (hp : primary ≠ PostureState.no_person)
    (hl : st.lastTick = some last)
    (hinv : CoachInv st)
    (hw : st.windowStart = some w)
    (he : now - w ≥ coachWindowMs)
    (hni : immediateHit (decide (now - st.lastReminderAt ≥ cooldownMs)) actives
             (coachAccum now last actives st).contMs = none) :
    ((coachTick now actives primary st).2 ≠ [] ↔
      (now - st.lastReminderAt ≥ cooldownMs ∧
        (coachAccum now last actives st).badMs ≥ badDominanceMs)) ∧
    (coachTick now actives primary st).1.windowStart = some now ∧
    (coachTick now actives primary st).1.goodMs = 0 ∧
    (coachTick now actives primary st).1.badMs = 0 ∧
    (coachTick now actives primary st).1.stateMs = [] ∧
    (∀ p, (coachTick now actives primary st).2 =
        [MonitoringEvent.coach_reminder p] →
      p.goodMs = (coachAccum now last actives st).goodMs ∧
      p.badMs = (coachAccum now last actives st).badMs ∧
      ∃ k v, p.topBad = some k ∧
        (k, v) ∈ (coachAccum now last actives st).stateMs ∧
        isBadState k = true ∧ 0 < v ∧
        ∀ kv ∈ (coachAccum now last actives st).stateMs,
          isBadState kv.1 = true → kv.2 ≤ v) ∧
    ((coachTick now actives primary st).2 = [] ∨
      ∃ p, (coachTick now actives primary st).2 =
        [MonitoringEvent.coach_reminder p]) := by
  have hwpos : 0 < w := by
    have := hinv.2
    rw [hw, windowStartPos] at this
    exact of_decide_eq_true this
  have hw0 : w ≠ 0 := ne_of_gt hwpos
  by_cases hfired : (decide (now - st.lastReminderAt ≥ cooldownMs) &&
      decide ((coachAccum now last actives st).badMs ≥ badDominanceMs)) = true
  · have hfp : now - st.lastReminderAt ≥ cooldownMs ∧
        (coachAccum now last actives st).badMs ≥ badDominanceMs := by
      have := hfired
      simp only [Bool.and_eq_true, decide_eq_true_eq] at this
      exact this
    rw [coachTick_some now actives st hp hl,
      coachTickGo_window_emit hni hw hw0 he hfired]
    refine ⟨?_, rfl, rfl, rfl, rfl, ?_, Or.inr ⟨_, rfl⟩⟩
    · constructor
      · intro _
        exact hfp
      · intro _ hcon
        cases hcon
    · intro p hpeq
      have hpl : MonitoringEvent.coach_reminder
          { states := if actives.isEmpty then [PostureState.good] else actives,
            primary := if actives.isEmpty then PostureState.good else primary,
            windowMs := coachWindowMs,
            goodMs := (coachAccum now last actives st).goodMs,
            badMs := (coachAccum now last actives st).badMs,
            topBad := topBadOf (coachAccum now last actives st).stateMs } =
          MonitoringEvent.coach_reminder p := by
        exact List.head_eq_of_cons_eq hpeq
      have hpv : p =
          { states := if actives.isEmpty then [PostureState.good] else actives,
            primary := if actives.isEmpty then PostureState.good else primary,
            windowMs := coachWindowMs,
            goodMs := (coachAccum now last actives st).goodMs,
            badMs := (coachAccum now last actives st).badMs,
            topBad := topBadOf (coachAccum now last actives st).stateMs } := by
        cases hpl
        rfl
      subst hpv
      refine ⟨rfl, rfl, ?_⟩
      have hbpos : 0 < badSum (coachAccum now last actives st).stateMs := by
        have hle := coachAccum_badMs_le now last actives st hinv.1
        have hdom : (0 : ℚ) < badDominanceMs := by
          rw [badDominanceMs]
          norm_num
        have := hfp.2
        linarith
      obtain ⟨k, v, htop, hmem, hbadk, hvpos, hmax⟩ :=
        topBadOf_of_badSum_pos _ hbpos
      exact ⟨k, v, htop, hmem, hbadk, hvpos, hmax⟩
  · have hfp : ¬ (now - st.lastReminderAt ≥ cooldownMs ∧
        (coachAccum now last actives st).badMs ≥ badDominanceMs) := by
      intro hc
      apply hfired
      simp only [Bool.and_eq_true, decide_eq_true_eq]
      exact hc
    rw [coachTick_some now actives st hp hl,
      coachTickGo_window_skip hni hw hw0 he hfired]
    refine ⟨?_, rfl, rfl, rfl, rfl, ?_, Or.inl rfl⟩
    · constructor
      · intro hne
        exact absurd rfl hne
      · intro hc
        exact absurd hc hfp
    · intro p hpeq
      cases hpeq

/-- Witness for `coach_window_trigger`: a reachable state with 90,000 ms
of bad time in the window, rolled over while cooled down, emits and
resets. -/
theorem coach_window_trigger_witness :
    (CoachInv stDominated ∧ (400000 : ℚ) - 1 ≥ coachWindowMs ∧
      immediateHit (decide ((400000 : ℚ) - stDominated.lastReminderAt ≥ cooldownMs))
        ([] : List PostureState)
        (coachAccum 400000 1 [] stDominated).contMs = none) ∧
    (coachTick 400000 [] PostureState.good stDominated).1.windowStart =
      some 400000 := by
  have hinv : CoachInv stDominated := by
    constructor
    · show (90000 : ℚ) ≤ badSum ([(PostureState.head_down, 90000)] : JsMap)
      rw [badSum_cons, if_pos (by decide)]
      show (90000 : ℚ) ≤ 90000 + badSum ([] : JsMap)
      norm_num [badSum]
    · rfl
  have hni : immediateHit
      (decide ((400000 : ℚ) - stDominated.lastReminderAt ≥ cooldownMs))
      ([] : List PostureState)
      (coachAccum 400000 1 [] stDominated).contMs = none := by
    rw [immediateHit]
    cases decide ((400000 : ℚ) - stDominated.lastReminderAt ≥ cooldownMs) <;> rfl
  refine ⟨⟨hinv, by norm_num [coachWindowMs], hni⟩, ?_⟩
  exact (coach_window_trigger 400000 1 1 [] PostureState.good stDominated
    (by decide) rfl hinv rfl (by norm_num [coachWindowMs]) hni).2.1

/-- Claim C8, counterexample: in the run `cexRollover` the window rolls
over at t = 120,001 ms (`windowStart`, `goodMs`, `badMs`, `perIssueMs`
are all reset) but the continuous-streak map is NOT reset: `continuousMs`
of `head_down` still reads 120,000 ms after the rollover, so the
CoachingWindowState is not reset wholesale. -/
theorem window_rollover_cex :
    (coachRun cexRollover).1.windowStart = some 120001 ∧
    (coachRun cexRollover).1.stateMs = [] ∧
    (coachRun cexRollover).1.badMs = 0 ∧
    (coachRun cexRollover).1.goodMs = 0 ∧
    jsGetD (coachRun cexRollover).1.contMs PostureState.head_down = 120000 := by
  have t1 : coachTick 1 [PostureState.head_down] PostureState.head_down coachInit =
      ({ lastTick := some 1, windowStart := some 1, goodMs := 0, badMs := 0,
         stateMs := [], contMs := [], lastReminderAt := 0 }, []) := by
    rw [coachTick_init 1 [PostureState.head_down] coachInit (by decide) rfl]
    rfl
  have t2 : coachTick 120001 [PostureState.head_down] PostureState.head_down
      { lastTick := some 1, windowStart := some 1, goodMs := 0, badMs := 0,
        stateMs := [], contMs := [], lastReminderAt := 0 } =
      ({ lastTick := some 120001, windowStart := some 120001, goodMs := 0, badMs := 0,
         stateMs := [], contMs := [(PostureState.head_down, 120000)],
         lastReminderAt := 0 }, []) := by
    norm_num [coachTick, coachTickGo, coachAccum, accumStateMs, contStep, coachActiveSet,
      jsDedup, jsSet, jsGet, jsGetD, immediateHit, topBadOf, topStep, isBadState,
      coachWindowMs, badDominanceMs, continuousBadMs, cooldownMs, List.lookup,
      List.filter] <;> decide
  have s1 : coachStep (coachInit, []) (((1 : ℚ), [PostureState.head_down],
      PostureState.head_down) : CoachInput) =
      ({ lastTick := some 1, windowStart := some 1, goodMs := 0, badMs := 0,
         stateMs := [], contMs := [], lastReminderAt := 0 }, []) := by
    rw [coachStep_mk, t1]
    rfl
  have s2 : coachStep
      (({ lastTick := some 1, windowStart := some 1, goodMs := 0, badMs := 0,
          stateMs := [], contMs := [], lastReminderAt := 0 } : CoachState), [])
      (((120001 : ℚ), [PostureState.head_down], PostureState.head_down) : CoachInput) =
      ({ lastTick := some 120001, windowStart := some 120001, goodMs := 0, badMs := 0,
         stateMs := [], contMs := [(PostureState.head_down, 120000)],
         lastReminderAt := 0 }, []) := by
    rw [coachStep_mk, t2]
    rfl
  have hrun : coachRun cexRollover =
      ({ lastTick := some 120001, windowStart := some 120001, goodMs := 0, badMs := 0,
         stateMs := [], contMs := [(PostureState.head_down, 120000)],
         lastReminderAt := 0 }, []) := by
    rw [coachRun, cexRollover, List.foldl_cons, s1, List.foldl_cons, s2, List.foldl_nil]
  rw [hrun]
  refine ⟨rfl, rfl, rfl, rfl, ?_⟩
  rw [jsGetD, jsGet_cons, if_pos rfl]
  rfl

/-- Claim C8, amended: at a window rollover `windowStart` is set to
`now` and `goodMs`, `badMs` and the per-issue map are reset — but the
continuous-streak map is NOT touched by the rollover: it carries the
value accumulated on this tick, and an issue's streak reads 0 exactly
because the per-tick continuous update zeroes issues that are not in the
active set (wholesale reset of `continuousMs` happens only at session
reset). -/
theorem window_rollover_reset (now last w : ℚ) (actives : List PostureState)
    (primary : PostureState) (st : CoachState)
    (hp : primary ≠ PostureState.no_person)
    (hl : st.lastTick = some last)
    (hni : immediateHit (decide (now - st.lastReminderAt ≥ cooldownMs)) actives
             (coachAccum now last actives st).contMs = none)
    (hw : st.windowStart = some w) (hw0 : w ≠ 0) (he : now - w ≥ coachWindowMs) :
    (coachTick now actives primary st).1.windowStart = some now ∧
    (coachTick now actives primary st).1.goodMs = 0 ∧
    (coachTick now actives primary st).1.badMs = 0 ∧
    (coachTick now actives primary st).1.stateMs = [] ∧
    (coachTick now actives primary st).1.contMs =
      contStep st.contMs (coachActiveSet actives) (max 0 (now - last)) ∧
    (∀ k, (coachActiveSet actives).contains k = false →
      jsGetD (coachTick now actives primary st).1.contMs k = 0) := by
  by_cases hfired : (decide (now - st.lastReminderAt ≥ cooldownMs) &&
      decide ((coachAccum now last actives st).badMs ≥ badDominanceMs)) = true
  · rw [coachTick_some now actives st hp hl,
      coachTickGo_window_emit hni hw hw0 he hfired]
    refine ⟨rfl, rfl, rfl, rfl, rfl, ?_⟩
    intro k hk
    exact contStep_not_active st.contMs (coachActiveSet actives) _ k hk
  · rw [coachTick_some now actives st hp hl,
      coachTickGo_window_skip hni hw hw0 he hfired]
    refine ⟨rfl, rfl, rfl, rfl, rfl, ?_⟩
    intro k hk
    exact contStep_not_active st.contMs (coachActiveSet actives) _ k hk

/-- Witness for `window_rollover_reset`: a concrete rollover tick inside
the cooldown. -/
theorem window_rollover_reset_witness :
    (immediateHit (decide ((120001 : ℚ) - stFresh.lastReminderAt ≥ cooldownMs))
        [PostureState.head_down]
        (coachAccum 120001 1 [PostureState.head_down] stFresh).contMs = none ∧
      (120001 : ℚ) - 1 ≥ coachWindowMs) ∧
    (coachTick 120001 [PostureState.head_down] PostureState.head_down
        stFresh).1.windowStart = some 120001 := by
  have hni : immediateHit
      (decide ((120001 : ℚ) - stFresh.lastReminderAt ≥ cooldownMs))
      [PostureState.head_down]
      (coachAccum 120001 1 [PostureState.head_down] stFresh).contMs = none := by
    rw [show (decide ((120001 : ℚ) - stFresh.lastReminderAt ≥ cooldownMs)) = false by
      norm_num [stFresh, cooldownMs]]
    rw [immediateHit, if_neg (by norm_num)]
  refine ⟨⟨hni, by norm_num [coachWindowMs]⟩, ?_⟩
  exact (window_rollover_reset 120001 1 1 [PostureState.head_down]
    PostureState.head_down stFresh (by decide) rfl hni rfl (by norm_num)
    (by norm_num [stFresh, coachWindowMs])).1

end PostureSense
